import Mathlib

/-!
# sailboat: the command buffer of `graphics/commands.c`

A shallow embedding of `src/sailboat/src/graphics/commands.c`.

* Every entry point of the C file is a function from the command buffer it
  receives to an `Outcome`: either the call returned, with the command buffer
  as it left it and the OpenGL calls it issued in order, or the process was
  terminated inside the call, with the calls issued up to that point.
* `u32`/`u64` values are natural numbers (a `u32` is below `2^32`); the code
  does no arithmetic on them. Where a `u32` is handed to a signed 32-bit
  parameter of an OpenGL call (`GLint`, `GLsizei`) or cast with `(i32)`, the
  conversion is `i32_cast`, and the call records the signed value.
* Arrays with a length field (`bindingDescriptions`/`bindingDescriptionAmount`,
  `attributes`/`attributeAmount`, `descriptors`/`descriptorAmount`) are lists.
* The effect of the issued calls on the OpenGL context is the separate
  function `glApply`, written from the OpenGL 4.5 reference.
* `graphics_command_buffer_initialize` (lines 6-9) stores the driver's new
  vertex array name in `vao` once, before any other call; a `command_buffer`
  value here is the buffer after it (or, with `vao = invalid_handle`, one that
  was never initialised). The pass-throughs `graphics_clear`,
  `graphics_set_clear_color`, `graphics_set_viewport` and `graphics_set_scissor`
  (lines 21-38) take no command buffer and are not embedded.
-/

namespace Sailboat

/-! ## Constants of `glad/glad.h` -/

def GL_POINTS : Nat := 0x0000
def GL_LINES : Nat := 0x0001
def GL_TRIANGLES : Nat := 0x0004
def GL_FRONT : Nat := 0x0404
def GL_BACK : Nat := 0x0405
def GL_FRONT_AND_BACK : Nat := 0x0408
def GL_CW : Nat := 0x0900
def GL_CCW : Nat := 0x0901
def GL_POINT : Nat := 0x1B00
def GL_LINE : Nat := 0x1B01
def GL_FILL : Nat := 0x1B02
def GL_TEXTURE_2D : Nat := 0x0DE1
def GL_UNIFORM_BUFFER : Nat := 0x8A11
def GL_FRAMEBUFFER : Nat := 0x8D40
def GL_SHADER_STORAGE_BUFFER : Nat := 0x90D2

/-! ## Data model

The struct and enum declarations live in headers that are not among the
sources; the fields and enumerators below are the ones `commands.c` uses. -/

/-- Modelled from the spec: `gl_handle` is declared in a missing header; an
opaque unsigned identifier (spec §3, "opaque identifier"). -/
abbrev gl_handle := Nat

/-- Modelled from the spec: the topology enum, declared in a missing header
(spec §3: POINTS, LINES, TRIANGLES). `unrecognised raw` is any other value the
C field can hold, the one the `default:` label of a switch receives. -/
inductive pipeline_topology
  | TOPOLOGY_POINTS
  | TOPOLOGY_LINES
  | TOPOLOGY_TRIANGLES
  | unrecognised (raw : Int)
  deriving DecidableEq, Repr

/-- Modelled from the spec: the winding enum, declared in a missing header
(spec §3: CW, CCW), with `unrecognised raw` for any other value. -/
inductive front_face
  | FRONT_FACE_CW
  | FRONT_FACE_CCW
  | unrecognised (raw : Int)
  deriving DecidableEq, Repr

/-- Modelled from the spec: the cull enum, declared in a missing header
(spec §3: FRONT, BACK, FRONT_AND_BACK), with `unrecognised raw` for any other
value. -/
inductive cull_face
  | CULL_FRONT
  | CULL_BACK
  | CULL_FRONT_AND_BACK
  | unrecognised (raw : Int)
  deriving DecidableEq, Repr

/-- Modelled from the spec: the fill-mode enum, declared in a missing header
(spec §3: FILL, LINE, POINT), with `unrecognised raw` for any other value. -/
inductive polygon_mode
  | POLYGON_MODE_FILL
  | POLYGON_MODE_LINE
  | POLYGON_MODE_POINT
  | unrecognised (raw : Int)
  deriving DecidableEq, Repr

/-- Modelled from the spec: the step-rate enum, declared in a missing header
(spec §3: VERTEX, INSTANCE), with `unrecognised raw` for any other value. -/
inductive input_rate
  | INPUT_RATE_VERTEX
  | INPUT_RATE_INSTANCE
  | unrecognised (raw : Int)
  deriving DecidableEq, Repr

/-- Modelled from the spec: the descriptor-type enum, declared in a missing
header (spec §3), with `unrecognised raw` for any other value. -/
inductive descriptor_type
  | DESCRIPTOR_TYPE_UNIFORM_BUFFER
  | DESCRIPTOR_TYPE_SHADER_STORAGE_BUFFER
  | DESCRIPTOR_TYPE_COMBINED_TEXTURE_SAMPLER
  | unrecognised (raw : Int)
  deriving DecidableEq, Repr

/-- Modelled from the spec: the attribute-format enum is declared in a missing
header and `commands.c` only hands its value to two missing helpers; the raw
enumerator value. -/
abbrev attribute_format := Nat

/-- Modelled from the spec: the index-type enum is declared in a missing header
and `commands.c` only stores its value and hands it to a missing helper; the
raw enumerator value. -/
abbrev buffer_index_type := Nat

/-- Modelled from the spec: `binding_description`, declared in a missing header;
the fields `commands.c` reads (spec §3). -/
structure binding_description where
  binding : Nat
  inputRate : input_rate
  deriving DecidableEq, Repr

/-- Modelled from the spec: the struct `attribute`, declared in a missing
header; the fields `commands.c` reads (spec §3). The C name is a reserved word
here, hence `vertex_attribute`. -/
structure vertex_attribute where
  location : Nat
  binding : Nat
  format : attribute_format
  normalized : Bool
  offset : Nat
  deriving DecidableEq, Repr

/-- Modelled from the spec: `pipeline`, declared in a missing header; the fields
`commands.c` reads (spec §3). The two arrays carry their length. -/
structure pipeline where
  handle : gl_handle
  topology : pipeline_topology
  frontFace : front_face
  cullFace : cull_face
  polygonMode : polygon_mode
  bindingDescriptions : List binding_description
  attributes : List vertex_attribute
  deriving DecidableEq, Repr

/-- Modelled from the spec: `descriptor`, declared in a missing header; the
fields `commands.c` reads (spec §3). Named `type` in C. -/
structure descriptor where
  type : descriptor_type
  binding : Nat
  handle : gl_handle
  deriving DecidableEq, Repr

/-- Modelled from the spec: `descriptor_set`, declared in a missing header; the
array `descriptors` with its length `descriptorAmount`. -/
structure descriptor_set where
  descriptors : List descriptor
  deriving DecidableEq, Repr

/-- Modelled from the spec: `command_buffer`, declared in a missing header; the
three fields `commands.c` reads and writes (spec §3). -/
structure command_buffer where
  vao : gl_handle
  pipelineTopology : pipeline_topology
  indexType : buffer_index_type
  deriving DecidableEq, Repr

/-- Modelled from the spec: the declarations `commands.c` uses whose definitions
are in missing files, taken as parameters: the constant `invalid_handle` and the
three lookup helpers `get_attribute_format_size`, `get_attribute_format` and
`get_buffer_index_type`. Spec §7 and §9 list the index type among the closed
enums whose unknown values are logged at fatal severity and unrecoverable, so
`get_buffer_index_type` either gives the OpenGL element type (`.ok`) or takes
its fatal default (`.error`, with the format string it logs). The spec names no
fatal default for the attribute format. -/
structure Externals where
  invalid_handle : gl_handle
  get_attribute_format_size : attribute_format → Nat
  get_attribute_format : attribute_format → Nat
  get_buffer_index_type : buffer_index_type → Except String Nat

/-- The C conversion of an unsigned value to a signed 32-bit type (`i32`,
`GLint`, `GLsizei`): reduction modulo `2^32` read as two's complement. -/
def i32_cast (x : Nat) : Int :=
  if x % 2 ^ 32 < 2 ^ 31 then ((x % 2 ^ 32 : Nat) : Int) else ((x % 2 ^ 32 : Nat) : Int) - 2 ^ 32

/-! ## The OpenGL calls `commands.c` issues -/

/-- One OpenGL call with its arguments as the driver receives them, in the
argument order of the C call: `GLenum`, `GLuint` and `GLboolean` parameters are
naturals and booleans, `GLint`, `GLsizei` and `GLintptr` parameters are signed.
`glDrawElements` and `glDrawElementsInstanced` carry the byte offset into the
bound index buffer that the C code passes as the `indices` pointer. -/
inductive GLCall
  | glBindVertexArray (array : Nat)
  | glBindFramebuffer (target framebuffer : Nat)
  | glUseProgram (program : Nat)
  | glFrontFace (mode : Nat)
  | glPolygonMode (face mode : Nat)
  | glCullFace (mode : Nat)
  | glEnableVertexArrayAttrib (vaobj index : Nat)
  | glVertexArrayAttribFormat (vaobj attribindex : Nat) (size : Int) (type : Nat)
      (normalized : Bool) (relativeoffset : Nat)
  | glVertexArrayAttribBinding (vaobj attribindex bindingindex : Nat)
  | glVertexArrayBindingDivisor (vaobj bindingindex divisor : Nat)
  | glBindBufferBase (target index buffer : Nat)
  | glBindTextureUnit (unit texture : Nat)
  | glBindTexture (target texture : Nat)
  | glVertexArrayVertexBuffer (vaobj bindingindex buffer : Nat) (offset stride : Int)
  | glVertexArrayElementBuffer (vaobj buffer : Nat)
  | glDrawArrays (mode : Nat) (first count : Int)
  | glDrawArraysInstanced (mode : Nat) (first count instancecount : Int)
  | glDrawElements (mode : Nat) (count : Int) (type indices : Nat)
  | glDrawElementsInstanced (mode : Nat) (count : Int) (type indices : Nat)
      (instancecount : Int)
  deriving DecidableEq, Repr

/-- Why a call did not return: a failed `assert` (the expression is recorded)
or a `SAIL_LOG_FATAL` (the format string is recorded). -/
inductive Fault
  | assertion (expr : String)
  | fatal (format : String)
  deriving DecidableEq, Repr

/-- What one entry point did: it returned, or the process was terminated inside
it. `calls` are the OpenGL calls issued, oldest first. -/
inductive Outcome
  | returned (cb : command_buffer) (calls : List GLCall)
  | aborted (fault : Fault) (calls : List GLCall)
  deriving DecidableEq, Repr

/-- The OpenGL calls of an outcome. -/
def Outcome.calls : Outcome → List GLCall
  | .returned _ cs => cs
  | .aborted _ cs => cs

/-- Whether the call returned to its caller. -/
def Outcome.isReturned : Outcome → Bool
  | .returned _ _ => true
  | .aborted _ _ => false

/-- The `assert` of `<assert.h>` failing (the build does not define `NDEBUG`;
spec §7 calls it assertion-fatal): a diagnostic, then `abort()`. `issued` are
the calls the function had made before. -/
def assert_fail (expr : String) (issued : List GLCall) : Outcome :=
  .aborted (.assertion expr) issued

/-- Modelled from the spec: the macro `SAIL_LOG_FATAL` is defined in a header
that is not among the sources. Spec §4.4 and §7: an unrecognised enum value is
"logged at fatal severity", "logged and aborts", "process termination with a
diagnostic message". `issued` are the calls the function had made before. -/
def SAIL_LOG_FATAL (format : String) (issued : List GLCall) : Outcome :=
  .aborted (.fatal format) issued

/-! ## `commands.c` -/

/-- Lines 11-15. -/
def graphics_begin_render (commandBuffer : command_buffer) (target : gl_handle) : Outcome :=
  .returned commandBuffer
    [.glBindVertexArray commandBuffer.vao, .glBindFramebuffer GL_FRAMEBUFFER target]

/-- Lines 16-19. -/
def graphics_begin_render_default (commandBuffer : command_buffer) : Outcome :=
  graphics_begin_render commandBuffer 0

/-- Lines 51-70: the switch over `pipeline->polygonMode`; `none` is the
`default:` label. -/
def polygonModeCode : polygon_mode → Option Nat
  | .POLYGON_MODE_FILL => some GL_FILL
  | .POLYGON_MODE_LINE => some GL_LINE
  | .POLYGON_MODE_POINT => some GL_POINT
  | .unrecognised _ => none

/-- Lines 73-92: the switch over `pipeline->cullFace`; `none` is the `default:`
label. -/
def cullModeCode : cull_face → Option Nat
  | .CULL_BACK => some GL_BACK
  | .CULL_FRONT => some GL_FRONT
  | .CULL_FRONT_AND_BACK => some GL_FRONT_AND_BACK
  | .unrecognised _ => none

/-- Lines 178-197 and 206-225: the switch over `commandBuffer->pipelineTopology`,
the same in both draw functions; `none` is the `default:` label. -/
def topologyCode : pipeline_topology → Option Nat
  | .TOPOLOGY_POINTS => some GL_POINTS
  | .TOPOLOGY_LINES => some GL_LINES
  | .TOPOLOGY_TRIANGLES => some GL_TRIANGLES
  | .unrecognised _ => none

/-- Lines 102-120: the body of the inner loop for one description and one
attribute. -/
def attributeCalls (ext : Externals) (vao : gl_handle) (description : binding_description)
    (attr : vertex_attribute) : List GLCall :=
  if attr.binding ≠ description.binding then []
  else
    [ .glEnableVertexArrayAttrib vao attr.location,
      .glVertexArrayAttribFormat vao attr.location
        (i32_cast (ext.get_attribute_format_size attr.format))
        (ext.get_attribute_format attr.format)
        attr.normalized
        attr.offset,
      .glVertexArrayAttribBinding vao attr.location description.binding,
      .glVertexArrayBindingDivisor vao description.binding
        (if description.inputRate = .INPUT_RATE_VERTEX then 0 else 1) ]

/-- Lines 100-121: the inner loop, over the attributes, for one description. -/
def descriptionCalls (ext : Externals) (vao : gl_handle) (attributes : List vertex_attribute)
    (description : binding_description) : List GLCall :=
  match attributes with
  | [] => []
  | a :: rest => attributeCalls ext vao description a ++ descriptionCalls ext vao rest description

/-- Lines 96-122: the outer loop, over the binding descriptions. -/
def layoutCalls (ext : Externals) (vao : gl_handle) (attributes : List vertex_attribute)
    (descriptions : List binding_description) : List GLCall :=
  match descriptions with
  | [] => []
  | d :: rest => descriptionCalls ext vao attributes d ++ layoutCalls ext vao attributes rest

/-- Lines 40-123. The `%d` argument of the two fatal logs is the local
`polygonMode` (respectively `cullMode`), not yet assigned on that path; the
outcome keeps the format string only. -/
def graphics_bind_pipeline (ext : Externals) (commandBuffer : command_buffer)
    (pl : pipeline) : Outcome :=
  if commandBuffer.vao = ext.invalid_handle then
    assert_fail "commandBuffer->vao != invalid_handle" []
  else if pl.handle = ext.invalid_handle then
    assert_fail "pipeline->handle != invalid_handle" []
  else
    let commandBuffer1 := { commandBuffer with pipelineTopology := pl.topology }
    let issued1 : List GLCall :=
      [ .glUseProgram pl.handle,
        .glFrontFace (if pl.frontFace = .FRONT_FACE_CW then GL_CW else GL_CCW) ]
    match polygonModeCode pl.polygonMode with
    | none => SAIL_LOG_FATAL "Invalid polygon mode: %d" issued1
    | some polygonMode =>
      let issued2 := issued1 ++ [.glPolygonMode GL_FRONT_AND_BACK polygonMode]
      match cullModeCode pl.cullFace with
      | none => SAIL_LOG_FATAL "Invalid cull mode: %d" issued2
      | some cullMode =>
        .returned commandBuffer1
          (issued2 ++ [.glCullFace cullMode]
            ++ layoutCalls ext commandBuffer1.vao pl.attributes pl.bindingDescriptions)

/-- Lines 128-152: the loop body for one descriptor; `none` is the `default:`
label. -/
def descriptorCalls (d : descriptor) : Option (List GLCall) :=
  match d.type with
  | .DESCRIPTOR_TYPE_UNIFORM_BUFFER => some [.glBindBufferBase GL_UNIFORM_BUFFER d.binding d.handle]
  | .DESCRIPTOR_TYPE_SHADER_STORAGE_BUFFER =>
    some [.glBindBufferBase GL_SHADER_STORAGE_BUFFER d.binding d.handle]
  | .DESCRIPTOR_TYPE_COMBINED_TEXTURE_SAMPLER =>
    some [.glBindTextureUnit d.binding d.handle, .glBindTexture GL_TEXTURE_2D d.handle]
  | .unrecognised _ => none

/-- Lines 126-153: the loop over the descriptors; `issued` are the calls of the
iterations already done. -/
def bindDescriptors (commandBuffer : command_buffer) (issued : List GLCall) :
    List descriptor → Outcome
  | [] => .returned commandBuffer issued
  | d :: rest =>
    match descriptorCalls d with
    | none => SAIL_LOG_FATAL "Invalid descriptor type: %d" issued
    | some cs => bindDescriptors commandBuffer (issued ++ cs) rest

/-- Lines 124-154. -/
def graphics_bind_descriptor_set (commandBuffer : command_buffer) (set : descriptor_set) :
    Outcome :=
  bindDescriptors commandBuffer [] set.descriptors

/-- Lines 155-161. The `u32` stride goes to the `GLsizei` parameter. -/
def graphics_bind_vertex_buffer (ext : Externals) (commandBuffer : command_buffer)
    (bufferHandle : gl_handle) (binding stride : Nat) : Outcome :=
  if commandBuffer.vao = ext.invalid_handle then
    assert_fail "commandBuffer->vao != invalid_handle" []
  else if bufferHandle = ext.invalid_handle then
    assert_fail "bufferHandle != invalid_handle" []
  else
    .returned commandBuffer
      [.glVertexArrayVertexBuffer commandBuffer.vao binding bufferHandle 0 (i32_cast stride)]

/-- Lines 162-169. -/
def graphics_bind_index_buffer (ext : Externals) (commandBuffer : command_buffer)
    (bufferHandle : gl_handle) (indexType : buffer_index_type) : Outcome :=
  if commandBuffer.vao = ext.invalid_handle then
    assert_fail "commandBuffer->vao != invalid_handle" []
  else if bufferHandle = ext.invalid_handle then
    assert_fail "bufferHandle != invalid_handle" []
  else
    .returned { commandBuffer with indexType := indexType }
      [.glVertexArrayElementBuffer commandBuffer.vao bufferHandle]

/-- Lines 171-203. The asserts on `firstVertex`, `firstInstance` and
`vertexCount` compare an unsigned value with zero and cannot fail. The `%d`
argument of the fatal log is the local `topology`, not yet assigned there. The
`u32` arguments go to the `GLint first` and `GLsizei count`, `instancecount`
parameters of the draw calls. -/
def graphics_draw (commandBuffer : command_buffer)
    (vertexCount instanceCount firstVertex _firstInstance : Nat) : Outcome :=
  if ¬ (instanceCount ≥ 1) then assert_fail "instanceCount >= 1" []
  else
    match topologyCode commandBuffer.pipelineTopology with
    | none => SAIL_LOG_FATAL "Invalid topology: %d" []
    | some topology =>
      if instanceCount = 1 then
        .returned commandBuffer
          [.glDrawArrays topology (i32_cast firstVertex) (i32_cast vertexCount)]
      else
        .returned commandBuffer
          [.glDrawArraysInstanced topology (i32_cast firstVertex) (i32_cast vertexCount)
            (i32_cast instanceCount)]

/-- Lines 204-231. `NULL` as the `indices` argument is byte offset 0 into the
bound index buffer. The `u32` counts go to `GLsizei` parameters. The argument
`get_buffer_index_type(commandBuffer->indexType)` is evaluated before the draw
call is made, so its fatal default ends the process with no call issued. -/
def graphics_draw_indexed (ext : Externals) (commandBuffer : command_buffer)
    (indexCount instanceCount _firstVertex _firstInstance : Nat) : Outcome :=
  match topologyCode commandBuffer.pipelineTopology with
  | none => SAIL_LOG_FATAL "Invalid topology: %d" []
  | some topology =>
    if instanceCount = 1 then
      match ext.get_buffer_index_type commandBuffer.indexType with
      | .error format => SAIL_LOG_FATAL format []
      | .ok elementType =>
        .returned commandBuffer [.glDrawElements topology (i32_cast indexCount) elementType 0]
    else
      match ext.get_buffer_index_type commandBuffer.indexType with
      | .error format => SAIL_LOG_FATAL format []
      | .ok elementType =>
        .returned commandBuffer
          [.glDrawElementsInstanced topology (i32_cast indexCount) elementType 0
            (i32_cast instanceCount)]

/-- Lines 233-236. -/
def graphics_end_render (commandBuffer : command_buffer) : Outcome :=
  graphics_begin_render_default commandBuffer

/-! ## Sequences of entry points -/

/-- One call of an entry point of `commands.c` with its arguments. -/
inductive Command
  | begin_render (target : gl_handle)
  | begin_render_default
  | end_render
  | bind_pipeline (pl : pipeline)
  | bind_descriptor_set (set : descriptor_set)
  | bind_vertex_buffer (bufferHandle : gl_handle) (binding stride : Nat)
  | bind_index_buffer (bufferHandle : gl_handle) (indexType : buffer_index_type)
  | draw (vertexCount instanceCount firstVertex firstInstance : Nat)
  | draw_indexed (indexCount instanceCount firstVertex firstInstance : Nat)
  deriving DecidableEq, Repr

/-- The entry point a command names, applied to the command buffer. -/
def Command.exec (ext : Externals) (cb : command_buffer) : Command → Outcome
  | .begin_render target => graphics_begin_render cb target
  | .begin_render_default => graphics_begin_render_default cb
  | .end_render => graphics_end_render cb
  | .bind_pipeline pl => graphics_bind_pipeline ext cb pl
  | .bind_descriptor_set set => graphics_bind_descriptor_set cb set
  | .bind_vertex_buffer h b s => graphics_bind_vertex_buffer ext cb h b s
  | .bind_index_buffer h t => graphics_bind_index_buffer ext cb h t
  | .draw vc ic fv fi => graphics_draw cb vc ic fv fi
  | .draw_indexed n ic fv fi => graphics_draw_indexed ext cb n ic fv fi

/-- The commands run one after the other on the same command buffer. A command
that terminates the process ends the run: the later ones are never called.
`issued` are the calls made before the first command. -/
def run (ext : Externals) (cb : command_buffer) (issued : List GLCall) :
    List Command → Outcome
  | [] => .returned cb issued
  | c :: rest =>
    match c.exec ext cb with
    | .returned cb1 cs => run ext cb1 (issued ++ cs) rest
    | .aborted fault cs => .aborted fault (issued ++ cs)

/-- Commands that are neither `bind_pipeline` nor `bind_index_buffer`. -/
def Command.isOther : Command → Bool
  | .bind_pipeline _ => false
  | .bind_index_buffer _ _ => false
  | _ => true

/-! ## Kinds of call -/

/-- The four draw calls. -/
def GLCall.isDraw : GLCall → Bool
  | .glDrawArrays _ _ _ => true
  | .glDrawArraysInstanced _ _ _ _ => true
  | .glDrawElements _ _ _ _ => true
  | .glDrawElementsInstanced _ _ _ _ _ => true
  | _ => false

/-- The four calls of the vertex-layout loops of `graphics_bind_pipeline`. -/
def GLCall.isLayout : GLCall → Bool
  | .glEnableVertexArrayAttrib _ _ => true
  | .glVertexArrayAttribFormat _ _ _ _ _ _ => true
  | .glVertexArrayAttribBinding _ _ _ => true
  | .glVertexArrayBindingDivisor _ _ _ => true
  | _ => false

/-- Calls of `glCullFace`. -/
def GLCall.isCullFace : GLCall → Bool
  | .glCullFace _ => true
  | _ => false

/-- Calls of `glPolygonMode`. -/
def GLCall.isPolygonMode : GLCall → Bool
  | .glPolygonMode _ _ => true
  | _ => false

/-! ## The OpenGL context

The part of the context state that the calls above write, after the OpenGL 4.5
reference pages. Each call is taken to be accepted by the driver (object names
exist, indexes are in range); error generation is not modelled. -/

/-- The function `f` with the value at `a` replaced by `v`. -/
def setAt {α β : Type} [DecidableEq α] (f : α → β) (a : α) (v : β) : α → β :=
  fun x => if x = a then v else f x

/-- The context state. Per-vertex-array state is keyed by `(vaobj, index)`. -/
structure GLState where
  vertexArrayBinding : Nat
  drawFramebufferBinding : Nat
  readFramebufferBinding : Nat
  currentProgram : Nat
  frontFace : Nat
  polygonMode : Nat
  cullFaceMode : Nat
  attribEnabled : Nat × Nat → Bool
  attribFormat : Nat × Nat → Int × Nat × Bool × Nat
  attribBinding : Nat × Nat → Nat
  bindingDivisor : Nat × Nat → Nat
  vertexBuffer : Nat × Nat → Nat × Int × Int
  elementBuffer : Nat → Nat
  uniformBufferBinding : Nat
  uniformBufferBase : Nat → Nat
  shaderStorageBufferBinding : Nat
  shaderStorageBufferBase : Nat → Nat
  activeTexture : Nat
  textureBinding2D : Nat → Nat

/-- The effect of one call on the context.

* `glBindFramebuffer(GL_FRAMEBUFFER, fb)` binds `fb` for drawing and reading.
* `glBindBufferBase(target, index, buffer)` binds `buffer` to the indexed point
  `index` of `target` and also to the generic binding point of `target`.
* `glBindTextureUnit(unit, texture)` binds `texture` to the target of its own
  type in `unit`; `commands.c` next binds the same name to `GL_TEXTURE_2D`, so
  the texture is a 2D texture.
* `glBindTexture(GL_TEXTURE_2D, texture)` binds to the active texture unit.
* Draw calls write the framebuffer contents, which are not part of the state.
* Targets that `commands.c` never passes leave the state as it is. -/
def glApply (g : GLState) : GLCall → GLState
  | .glBindVertexArray array => { g with vertexArrayBinding := array }
  | .glBindFramebuffer target framebuffer =>
    if target = GL_FRAMEBUFFER then
      { g with drawFramebufferBinding := framebuffer, readFramebufferBinding := framebuffer }
    else g
  | .glUseProgram program => { g with currentProgram := program }
  | .glFrontFace mode => { g with frontFace := mode }
  | .glPolygonMode face mode => if face = GL_FRONT_AND_BACK then { g with polygonMode := mode } else g
  | .glCullFace mode => { g with cullFaceMode := mode }
  | .glEnableVertexArrayAttrib vaobj index =>
    { g with attribEnabled := setAt g.attribEnabled (vaobj, index) true }
  | .glVertexArrayAttribFormat vaobj attribindex size type normalized relativeoffset =>
    { g with attribFormat :=
        setAt g.attribFormat (vaobj, attribindex) (size, type, normalized, relativeoffset) }
  | .glVertexArrayAttribBinding vaobj attribindex bindingindex =>
    { g with attribBinding := setAt g.attribBinding (vaobj, attribindex) bindingindex }
  | .glVertexArrayBindingDivisor vaobj bindingindex divisor =>
    { g with bindingDivisor := setAt g.bindingDivisor (vaobj, bindingindex) divisor }
  | .glBindBufferBase target index buffer =>
    if target = GL_UNIFORM_BUFFER then
      { g with uniformBufferBinding := buffer,
               uniformBufferBase := setAt g.uniformBufferBase index buffer }
    else if target = GL_SHADER_STORAGE_BUFFER then
      { g with shaderStorageBufferBinding := buffer,
               shaderStorageBufferBase := setAt g.shaderStorageBufferBase index buffer }
    else g
  | .glBindTextureUnit unit texture =>
    { g with textureBinding2D := setAt g.textureBinding2D unit texture }
  | .glBindTexture target texture =>
    if target = GL_TEXTURE_2D then
      { g with textureBinding2D := setAt g.textureBinding2D g.activeTexture texture }
    else g
  | .glVertexArrayVertexBuffer vaobj bindingindex buffer offset stride =>
    { g with vertexBuffer := setAt g.vertexBuffer (vaobj, bindingindex) (buffer, offset, stride) }
  | .glVertexArrayElementBuffer vaobj buffer =>
    { g with elementBuffer := setAt g.elementBuffer vaobj buffer }
  | .glDrawArrays _ _ _ => g
  | .glDrawArraysInstanced _ _ _ _ => g
  | .glDrawElements _ _ _ _ => g
  | .glDrawElementsInstanced _ _ _ _ _ => g

/-- The context after a list of calls, oldest first. -/
def glRun (g : GLState) (calls : List GLCall) : GLState :=
  calls.foldl glApply g

/-- The rasterizer state: front-face winding, cull mode, polygon fill mode. -/
def GLState.rasterizer (g : GLState) : Nat × Nat × Nat :=
  (g.frontFace, g.cullFaceMode, g.polygonMode)

/-- A context in which nothing is bound or enabled, with the initial values of
the OpenGL state tables (`GL_CCW`, `GL_FILL`, `GL_BACK`, texture unit 0). -/
def initialGL : GLState :=
  { vertexArrayBinding := 0, drawFramebufferBinding := 0, readFramebufferBinding := 0,
    currentProgram := 0, frontFace := GL_CCW, polygonMode := GL_FILL, cullFaceMode := GL_BACK,
    attribEnabled := fun _ => false, attribFormat := fun _ => (4, 0x1406, false, 0),
    attribBinding := fun k => k.2, bindingDivisor := fun _ => 0,
    vertexBuffer := fun _ => (0, 0, 16), elementBuffer := fun _ => 0,
    uniformBufferBinding := 0, uniformBufferBase := fun _ => 0,
    shaderStorageBufferBinding := 0, shaderStorageBufferBase := fun _ => 0,
    activeTexture := 0, textureBinding2D := fun _ => 0 }

/-! ## Concrete data for the examples -/

/-- Sample values for the missing declarations: `invalid_handle` is 0, a format
value `n` has `n` components of type `GL_FLOAT`, index type 0 is
`GL_UNSIGNED_SHORT`, index type 1 is `GL_UNSIGNED_INT` and any other value takes
the fatal default. -/
def sampleExt : Externals :=
  { invalid_handle := 0,
    get_attribute_format_size := fun f => f,
    get_attribute_format := fun _ => 0x1406,
    get_buffer_index_type := fun t =>
      if t = 0 then .ok 0x1403 else if t = 1 then .ok 0x1405
      else .error "Invalid buffer index type: %d" }

/-- An initialised command buffer: vertex array 1. -/
def sampleBuffer : command_buffer :=
  { vao := 1, pipelineTopology := .TOPOLOGY_POINTS, indexType := 0 }

/-- The pipeline of the scenario of spec §8: triangles, one per-vertex binding 0,
one vec3 attribute at location 0. -/
def trianglePipeline : pipeline :=
  { handle := 7, topology := .TOPOLOGY_TRIANGLES, frontFace := .FRONT_FACE_CCW,
    cullFace := .CULL_BACK, polygonMode := .POLYGON_MODE_FILL,
    bindingDescriptions := [{ binding := 0, inputRate := .INPUT_RATE_VERTEX }],
    attributes := [{ location := 0, binding := 0, format := 3, normalized := false, offset := 0 }] }

/-- The draw call `graphics_draw` is expected to issue for a primitive mode,
with the arguments as the driver receives them. -/
def expectedDraw (mode vertexCount instanceCount firstVertex : Nat) : GLCall :=
  if instanceCount = 1 then .glDrawArrays mode (i32_cast firstVertex) (i32_cast vertexCount)
  else
    .glDrawArraysInstanced mode (i32_cast firstVertex) (i32_cast vertexCount)
      (i32_cast instanceCount)

/-- The draw calls among the calls of an outcome are exactly the one given. -/
def issuesExactlyOneDraw (o : Outcome) (c : GLCall) : Prop :=
  o.calls.filter GLCall.isDraw = [c]

instance (o : Outcome) (c : GLCall) : Decidable (issuesExactlyOneDraw o c) := by
  unfold issuesExactlyOneDraw; infer_instance

/-- The scenario pipeline with a second attribute at location 0 that names
binding 5, which no description lists; it comes first in the array. -/
def sharedLocationPipeline : pipeline :=
  { trianglePipeline with
    attributes :=
      [ { location := 0, binding := 5, format := 2, normalized := false, offset := 0 },
        { location := 0, binding := 0, format := 3, normalized := false, offset := 0 } ] }

/-- The scenario pipeline with a second attribute, at location 1, that names
binding 5, which no description lists. -/
def unmatchedAttributePipeline : pipeline :=
  { trianglePipeline with
    attributes :=
      [ { location := 0, binding := 0, format := 3, normalized := false, offset := 0 },
        { location := 1, binding := 5, format := 2, normalized := false, offset := 12 } ] }

/-- The indexed draw call expected for a primitive mode and an element type:
the index data are read from the start of the bound index buffer. -/
def expectedDrawIndexed (mode indexCount elementType instanceCount : Nat) : GLCall :=
  if instanceCount = 1 then .glDrawElements mode (i32_cast indexCount) elementType 0
  else
    .glDrawElementsInstanced mode (i32_cast indexCount) elementType 0
      (i32_cast instanceCount)

/-- The command buffer fields as the most recent binds leave them: a pipeline
bind records its topology, an index-buffer bind its index type, and no other
command writes a field. -/
def Command.cache (cb : command_buffer) : Command → command_buffer
  | .bind_pipeline pl => { cb with pipelineTopology := pl.topology }
  | .bind_index_buffer _ t => { cb with indexType := t }
  | _ => cb

/-- The fields after a list of commands, by `Command.cache`. -/
def cacheAfter (cb : command_buffer) (l : List Command) : command_buffer :=
  l.foldl Command.cache cb

/-- A descriptor set with one entry of an unrecognised type. -/
def badDescriptorSet : descriptor_set :=
  { descriptors := [{ type := .unrecognised 9, binding := 0, handle := 1 }] }

/-- A descriptor set with a uniform buffer and a texture. -/
def sampleDescriptorSet : descriptor_set :=
  { descriptors :=
      [ { type := .DESCRIPTOR_TYPE_UNIFORM_BUFFER, binding := 0, handle := 11 },
        { type := .DESCRIPTOR_TYPE_COMBINED_TEXTURE_SAMPLER, binding := 2, handle := 12 } ] }

/-- A second pipeline: lines, clockwise, front culling, wireframe, no layout. -/
def linePipeline : pipeline :=
  { handle := 8, topology := .TOPOLOGY_LINES, frontFace := .FRONT_FACE_CW,
    cullFace := .CULL_FRONT, polygonMode := .POLYGON_MODE_LINE,
    bindingDescriptions := [], attributes := [] }

/-- The calls of the loop body for one descriptor, none for the `default:`
label. -/
def descriptorCallList (d : descriptor) : List GLCall :=
  (descriptorCalls d).getD []

/-- The type of a descriptor is one of the three cases of the switch. -/
def descriptor.recognised (d : descriptor) : Prop :=
  d.type = .DESCRIPTOR_TYPE_UNIFORM_BUFFER ∨ d.type = .DESCRIPTOR_TYPE_SHADER_STORAGE_BUFFER ∨
    d.type = .DESCRIPTOR_TYPE_COMBINED_TEXTURE_SAMPLER

instance (d : descriptor) : Decidable d.recognised := by
  unfold descriptor.recognised; infer_instance

/-- Two uniform buffers on the same binding 0. -/
def collidingSet : descriptor_set :=
  { descriptors :=
      [ { type := .DESCRIPTOR_TYPE_UNIFORM_BUFFER, binding := 0, handle := 1 },
        { type := .DESCRIPTOR_TYPE_UNIFORM_BUFFER, binding := 0, handle := 2 } ] }

/-- The entries of `collidingSet` in the other order. -/
def collidingSetSwapped : descriptor_set :=
  { descriptors :=
      [ { type := .DESCRIPTOR_TYPE_UNIFORM_BUFFER, binding := 0, handle := 2 },
        { type := .DESCRIPTOR_TYPE_UNIFORM_BUFFER, binding := 0, handle := 1 } ] }

/-- The scenario of spec §8: uniform buffers 11 and 12 at bindings 0 and 1. -/
def twoUniformSet : descriptor_set :=
  { descriptors :=
      [ { type := .DESCRIPTOR_TYPE_UNIFORM_BUFFER, binding := 0, handle := 11 },
        { type := .DESCRIPTOR_TYPE_UNIFORM_BUFFER, binding := 1, handle := 12 } ] }

/-- The entries of `twoUniformSet` in the other order. -/
def twoUniformSetSwapped : descriptor_set :=
  { descriptors :=
      [ { type := .DESCRIPTOR_TYPE_UNIFORM_BUFFER, binding := 1, handle := 12 },
        { type := .DESCRIPTOR_TYPE_UNIFORM_BUFFER, binding := 0, handle := 11 } ] }

/-- The default render target of spec §4.2, "sentinel value 0". -/
def defaultTarget : gl_handle := 0

/-- The spec's definition of `end_render` (§4.2): "`end_render(buffer)` is defined
as `begin_render(buffer, default)`". -/
def spec_end_render (commandBuffer : command_buffer) : Outcome :=
  graphics_begin_render commandBuffer defaultTarget

/-- The attribute locations of a pipeline whose attribute names a binding that
some binding description lists. -/
def enabledSlots (pl : pipeline) : List Nat :=
  (pl.attributes.filter
    (fun a => pl.bindingDescriptions.any (fun d => decide (d.binding = a.binding)))).map
    (fun a => a.location)

/-- The scenario pipeline with a second attribute at location 0 on the same
binding 0, of another format: both attributes match the one description. -/
def twoFormatsPipeline : pipeline :=
  { trianglePipeline with
    attributes :=
      [ { location := 0, binding := 0, format := 3, normalized := false, offset := 0 },
        { location := 0, binding := 0, format := 2, normalized := true, offset := 12 } ] }

/-- A pipeline with bindings 0 (per vertex) and 1 (per instance) and one
attribute on each, both at location 0. -/
def twoBindingsPipeline : pipeline :=
  { trianglePipeline with
    bindingDescriptions :=
      [ { binding := 0, inputRate := .INPUT_RATE_VERTEX },
        { binding := 1, inputRate := .INPUT_RATE_INSTANCE } ],
    attributes :=
      [ { location := 0, binding := 0, format := 3, normalized := false, offset := 0 },
        { location := 0, binding := 1, format := 3, normalized := false, offset := 0 } ] }

/-! ## Lemmas on the vertex-layout loops -/

/-- A value below `2^31` is unchanged by the conversion to signed 32-bit. -/
theorem i32_cast_of_lt (x : Nat) (h : x < 2 ^ 31) : i32_cast x = (x : Int) := by
  have h1 : x % 2 ^ 32 = x := Nat.mod_eq_of_lt (by omega)
  unfold i32_cast
  rw [h1, if_pos h]

theorem mem_attributeCalls (ext : Externals) (vao : gl_handle) (d : binding_description)
    (a : vertex_attribute) (c : GLCall) :
    c ∈ attributeCalls ext vao d a ↔
      a.binding = d.binding ∧
        (c = .glEnableVertexArrayAttrib vao a.location ∨
         c = .glVertexArrayAttribFormat vao a.location
              (i32_cast (ext.get_attribute_format_size a.format))
              (ext.get_attribute_format a.format) a.normalized a.offset ∨
         c = .glVertexArrayAttribBinding vao a.location d.binding ∨
         c = .glVertexArrayBindingDivisor vao d.binding
              (if d.inputRate = .INPUT_RATE_VERTEX then 0 else 1)) := by
  unfold attributeCalls
  by_cases h : a.binding = d.binding
  · simp [h]
  · simp [h]

theorem mem_descriptionCalls (ext : Externals) (vao : gl_handle) (d : binding_description)
    (c : GLCall) (attrs : List vertex_attribute) :
    c ∈ descriptionCalls ext vao attrs d ↔ ∃ a ∈ attrs, c ∈ attributeCalls ext vao d a := by
  induction attrs with
  | nil => simp [descriptionCalls]
  | cons a rest ih => simp [descriptionCalls, ih]

theorem mem_layoutCalls (ext : Externals) (vao : gl_handle) (attrs : List vertex_attribute)
    (c : GLCall) (descs : List binding_description) :
    c ∈ layoutCalls ext vao attrs descs ↔
      ∃ d ∈ descs, ∃ a ∈ attrs, c ∈ attributeCalls ext vao d a := by
  induction descs with
  | nil => simp [layoutCalls]
  | cons d rest ih => simp [layoutCalls, ih, mem_descriptionCalls]

theorem isLayout_of_mem_layoutCalls (ext : Externals) (vao : gl_handle)
    (attrs : List vertex_attribute) (descs : List binding_description) (c : GLCall)
    (hc : c ∈ layoutCalls ext vao attrs descs) : c.isLayout = true := by
  obtain ⟨d, -, a, -, hmem⟩ := (mem_layoutCalls ext vao attrs c descs).1 hc
  obtain ⟨-, h | h | h | h⟩ := (mem_attributeCalls ext vao d a c).1 hmem <;>
    · subst h; rfl

theorem filter_isDraw_layoutCalls (ext : Externals) (vao : gl_handle)
    (attrs : List vertex_attribute) (descs : List binding_description) :
    (layoutCalls ext vao attrs descs).filter GLCall.isDraw = [] := by
  rw [List.filter_eq_nil_iff]
  intro c hc
  have h := isLayout_of_mem_layoutCalls ext vao attrs descs c hc
  cases c <;> simp_all [GLCall.isLayout, GLCall.isDraw]

/-- The bind when both asserts pass and both switches find a case. -/
theorem bind_pipeline_returned (ext : Externals) (cb : command_buffer) (pl : pipeline)
    (pm cm : Nat) (hvao : cb.vao ≠ ext.invalid_handle) (hh : pl.handle ≠ ext.invalid_handle)
    (hpm : polygonModeCode pl.polygonMode = some pm) (hcm : cullModeCode pl.cullFace = some cm) :
    graphics_bind_pipeline ext cb pl =
      .returned { cb with pipelineTopology := pl.topology }
        ([ .glUseProgram pl.handle,
           .glFrontFace (if pl.frontFace = .FRONT_FACE_CW then GL_CW else GL_CCW),
           .glPolygonMode GL_FRONT_AND_BACK pm,
           .glCullFace cm ]
          ++ layoutCalls ext cb.vao pl.attributes pl.bindingDescriptions) := by
  simp [graphics_bind_pipeline, hvao, hh, hpm, hcm]

theorem descriptionCalls_append (ext : Externals) (vao : gl_handle) (d : binding_description)
    (s t : List vertex_attribute) :
    descriptionCalls ext vao (s ++ t) d =
      descriptionCalls ext vao s d ++ descriptionCalls ext vao t d := by
  induction s with
  | nil => simp [descriptionCalls]
  | cons a rest ih => simp [descriptionCalls, ih]

theorem layoutCalls_append (ext : Externals) (vao : gl_handle) (attrs : List vertex_attribute)
    (s t : List binding_description) :
    layoutCalls ext vao attrs (s ++ t) =
      layoutCalls ext vao attrs s ++ layoutCalls ext vao attrs t := by
  induction s with
  | nil => simp [layoutCalls]
  | cons d rest ih => simp [layoutCalls, ih]

/-- The calls of one matching pair stand together in the calls of the loops. -/
theorem layoutCalls_block (ext : Externals) (vao : gl_handle) (attrs : List vertex_attribute)
    (descs : List binding_description) (a : vertex_attribute) (d : binding_description)
    (ha : a ∈ attrs) (hd : d ∈ descs) :
    ∃ before after,
      layoutCalls ext vao attrs descs = before ++ attributeCalls ext vao d a ++ after := by
  obtain ⟨d1, d2, rfl⟩ := List.append_of_mem hd
  obtain ⟨a1, a2, rfl⟩ := List.append_of_mem ha
  refine ⟨layoutCalls ext vao (a1 ++ a :: a2) d1 ++ descriptionCalls ext vao a1 d,
    descriptionCalls ext vao a2 d ++ layoutCalls ext vao (a1 ++ a :: a2) d2, ?_⟩
  simp [layoutCalls_append, layoutCalls, descriptionCalls_append, descriptionCalls]

/-! ## Lemmas on the context -/

theorem glRun_append (g : GLState) (s t : List GLCall) :
    glRun g (s ++ t) = glRun (glRun g s) t := by
  simp [glRun, List.foldl_append]

theorem glRun_cons (g : GLState) (c : GLCall) (t : List GLCall) :
    glRun g (c :: t) = glRun (glApply g c) t := rfl

theorem attribEnabled_glApply (g : GLState) (c : GLCall) (k : Nat × Nat) :
    (glApply g c).attribEnabled k = true ↔
      g.attribEnabled k = true ∨ c = .glEnableVertexArrayAttrib k.1 k.2 := by
  cases c <;> simp [glApply, setAt] <;> try (split <;> (try split) <;> simp)
  case glEnableVertexArrayAttrib vaobj index =>
    by_cases h : k = (vaobj, index)
    · subst h; simp
    · have h2 : ¬ (vaobj = k.1 ∧ index = k.2) := by
        rintro ⟨rfl, rfl⟩; exact h rfl
      simp [h, h2]

/-- A slot is enabled after a list of calls exactly when it was enabled before
or one of the calls enables it: no call disables a slot. -/
theorem attribEnabled_glRun (cs : List GLCall) (k : Nat × Nat) (g : GLState) :
    (glRun g cs).attribEnabled k = true ↔
      g.attribEnabled k = true ∨ .glEnableVertexArrayAttrib k.1 k.2 ∈ cs := by
  induction cs generalizing g with
  | nil => simp [glRun]
  | cons c rest ih =>
    rw [glRun_cons, ih, attribEnabled_glApply]
    simp only [List.mem_cons]
    constructor
    · rintro ((h | h) | h)
      · exact Or.inl h
      · exact Or.inr (Or.inl h.symm)
      · exact Or.inr (Or.inr h)
    · rintro (h | h | h)
      · exact Or.inl (Or.inl h)
      · exact Or.inl (Or.inr h.symm)
      · exact Or.inr h

theorem bindingDivisor_glApply (g : GLState) (c : GLCall) (k : Nat × Nat) (v : Nat)
    (hc : ∀ dv, c = .glVertexArrayBindingDivisor k.1 k.2 dv → dv = v)
    (hg : g.bindingDivisor k = v ∨ ∃ dv, c = .glVertexArrayBindingDivisor k.1 k.2 dv) :
    (glApply g c).bindingDivisor k = v := by
  cases c
  case glVertexArrayBindingDivisor vaobj bi dv =>
    by_cases h : k = (vaobj, bi)
    · subst h
      have := hc dv rfl
      simp [glApply, setAt, this]
    · have h2 : ¬ (vaobj = k.1 ∧ bi = k.2) := by
        rintro ⟨rfl, rfl⟩; exact h rfl
      rcases hg with hg | ⟨dv2, hdv⟩
      · simp [glApply, setAt, h, hg]
      · injection hdv with e1 e2
        exact absurd ⟨e1, e2⟩ h2
  all_goals
    rcases hg with hg | ⟨dv2, hdv⟩
    · simp only [glApply]
      first
        | exact hg
        | (split <;> first | exact hg | (split <;> exact hg))
    · cases hdv

/-- When every call that sets the divisor of a binding slot sets it to `v`, the
slot has divisor `v` after the calls if it had before or one of them sets it. -/
theorem bindingDivisor_glRun (cs : List GLCall) (k : Nat × Nat) (v : Nat) (g : GLState)
    (hall : ∀ dv, .glVertexArrayBindingDivisor k.1 k.2 dv ∈ cs → dv = v)
    (hg : g.bindingDivisor k = v ∨ ∃ dv, .glVertexArrayBindingDivisor k.1 k.2 dv ∈ cs) :
    (glRun g cs).bindingDivisor k = v := by
  induction cs generalizing g with
  | nil =>
    rcases hg with hg | ⟨dv, hdv⟩
    · exact hg
    · cases hdv
  | cons c rest ih =>
    rw [glRun_cons]
    have hall1 : ∀ dv, c = .glVertexArrayBindingDivisor k.1 k.2 dv → dv = v :=
      fun dv h => hall dv (h ▸ List.mem_cons_self _ _)
    have hall2 : ∀ dv, .glVertexArrayBindingDivisor k.1 k.2 dv ∈ rest → dv = v :=
      fun dv h => hall dv (List.mem_cons_of_mem _ h)
    rcases hg with hg | ⟨dv, hdv⟩
    · exact ih _ hall2 (Or.inl (bindingDivisor_glApply g c k v hall1 (Or.inl hg)))
    · rcases List.mem_cons.1 hdv with h | h
      · exact ih _ hall2 (Or.inl (bindingDivisor_glApply g c k v hall1 (Or.inr ⟨dv, h.symm⟩)))
      · exact ih _ hall2 (Or.inr ⟨dv, h⟩)

theorem rasterizer_glApply_layout (g : GLState) (c : GLCall) (hc : c.isLayout = true) :
    (glApply g c).rasterizer = g.rasterizer := by
  cases c <;> simp_all [GLCall.isLayout, glApply, GLState.rasterizer]

theorem rasterizer_glRun_layout (cs : List GLCall) (g : GLState)
    (hcs : ∀ c ∈ cs, c.isLayout = true) : (glRun g cs).rasterizer = g.rasterizer := by
  induction cs generalizing g with
  | nil => rfl
  | cons c rest ih =>
    rw [glRun_cons, ih _ (fun c2 h2 => hcs c2 (List.mem_cons_of_mem _ h2)),
      rasterizer_glApply_layout g c (hcs c (List.mem_cons_self _ _))]

/-- The rasterizer state after the calls of a completed bind is the one the bind
names, whatever it was before. -/
theorem rasterizer_glRun_bind (g : GLState) (program frontFace polygonMode cullMode : Nat)
    (layout : List GLCall) (hlayout : ∀ c ∈ layout, c.isLayout = true) :
    (glRun g ([ .glUseProgram program, .glFrontFace frontFace,
        .glPolygonMode GL_FRONT_AND_BACK polygonMode, .glCullFace cullMode ] ++ layout)).rasterizer
      = (frontFace, cullMode, polygonMode) := by
  rw [glRun_append, rasterizer_glRun_layout layout _ hlayout]
  simp [glRun, glApply, GLState.rasterizer]

theorem mem_enabledSlots (pl : pipeline) (loc : Nat) :
    loc ∈ enabledSlots pl ↔
      ∃ d ∈ pl.bindingDescriptions, ∃ a ∈ pl.attributes,
        a.binding = d.binding ∧ a.location = loc := by
  simp only [enabledSlots, List.mem_map, List.mem_filter, List.any_eq_true, decide_eq_true_eq]
  constructor
  · rintro ⟨a, ⟨ha, d, hd, hb⟩, hl⟩
    exact ⟨d, hd, a, ha, hb.symm, hl⟩
  · rintro ⟨d, hd, a, ha, hb, hl⟩
    exact ⟨a, ⟨ha, d, hd, hb.symm⟩, hl⟩

theorem enable_mem_layoutCalls (ext : Externals) (vao : gl_handle) (pl : pipeline) (loc : Nat) :
    .glEnableVertexArrayAttrib vao loc ∈
        layoutCalls ext vao pl.attributes pl.bindingDescriptions ↔ loc ∈ enabledSlots pl := by
  rw [mem_layoutCalls, mem_enabledSlots]
  constructor
  · rintro ⟨d, hd, a, ha, hc⟩
    obtain ⟨hb, h | h | h | h⟩ := (mem_attributeCalls ext vao d a _).1 hc
    · injection h with _ e2
      exact ⟨d, hd, a, ha, hb, e2.symm⟩
    · cases h
    · cases h
    · cases h
  · rintro ⟨d, hd, a, ha, hb, hl⟩
    refine ⟨d, hd, a, ha, (mem_attributeCalls ext vao d a _).2 ⟨hb, Or.inl ?_⟩⟩
    rw [hl]

/-! ## Lemmas on descriptor sets -/

theorem activeTexture_glApply (g : GLState) (c : GLCall) :
    (glApply g c).activeTexture = g.activeTexture := by
  cases c <;> simp only [glApply] <;> first | rfl | (split <;> first | rfl | (split <;> rfl))

theorem uniformBufferBase_glApply (g : GLState) (c : GLCall) (i v : Nat)
    (hc : ∀ b, c = .glBindBufferBase GL_UNIFORM_BUFFER i b → b = v)
    (hg : g.uniformBufferBase i = v ∨ ∃ b, c = .glBindBufferBase GL_UNIFORM_BUFFER i b) :
    (glApply g c).uniformBufferBase i = v := by
  cases c
  case glBindBufferBase target index buffer =>
    by_cases ht : target = GL_UNIFORM_BUFFER
    · subst ht
      by_cases hi : i = index
      · subst hi
        have := hc buffer rfl
        simp [glApply, setAt, this]
      · rcases hg with hg | ⟨b, hb⟩
        · simp [glApply, setAt, hi, hg]
        · injection hb with _ e2 _
          exact absurd e2.symm hi
    · rcases hg with hg | ⟨b, hb⟩
      · simp only [glApply, ht, if_false]
        split <;> exact hg
      · injection hb with e1 _ _
        exact absurd e1 ht
  all_goals
    rcases hg with hg | ⟨b, hb⟩
    · simp only [glApply]
      first
        | exact hg
        | (split <;> exact hg)
    · cases hb

theorem shaderStorageBufferBase_glApply (g : GLState) (c : GLCall) (i v : Nat)
    (hc : ∀ b, c = .glBindBufferBase GL_SHADER_STORAGE_BUFFER i b → b = v)
    (hg : g.shaderStorageBufferBase i = v ∨
      ∃ b, c = .glBindBufferBase GL_SHADER_STORAGE_BUFFER i b) :
    (glApply g c).shaderStorageBufferBase i = v := by
  cases c
  case glBindBufferBase target index buffer =>
    by_cases ht : target = GL_SHADER_STORAGE_BUFFER
    · subst ht
      have hne : GL_SHADER_STORAGE_BUFFER ≠ GL_UNIFORM_BUFFER := by decide
      by_cases hi : i = index
      · subst hi
        have := hc buffer rfl
        simp [glApply, setAt, this, hne]
      · rcases hg with hg | ⟨b, hb⟩
        · simp [glApply, setAt, hi, hg, hne]
        · injection hb with _ e2 _
          exact absurd e2.symm hi
    · rcases hg with hg | ⟨b, hb⟩
      · simp only [glApply, ht, if_false]
        split <;> exact hg
      · injection hb with e1 _ _
        exact absurd e1 ht
  all_goals
    rcases hg with hg | ⟨b, hb⟩
    · simp only [glApply]
      first
        | exact hg
        | (split <;> exact hg)
    · cases hb

theorem textureBinding2D_glApply (g : GLState) (c : GLCall) (u v : Nat)
    (hu : u ≠ g.activeTexture)
    (hc : ∀ t, c = .glBindTextureUnit u t → t = v)
    (hg : g.textureBinding2D u = v ∨ ∃ t, c = .glBindTextureUnit u t) :
    (glApply g c).textureBinding2D u = v := by
  cases c
  case glBindTextureUnit unit texture =>
    by_cases hi : u = unit
    · subst hi
      have := hc texture rfl
      simp [glApply, setAt, this]
    · rcases hg with hg | ⟨b, hb⟩
      · simp [glApply, setAt, hi, hg]
      · injection hb with e1 _
        exact absurd e1.symm hi
  case glBindTexture target texture =>
    rcases hg with hg | ⟨b, hb⟩
    · simp only [glApply]
      split
      · simp [setAt, hu, hg]
      · exact hg
    · cases hb
  all_goals
    rcases hg with hg | ⟨b, hb⟩
    · simp only [glApply]
      first
        | exact hg
        | (split <;> first | exact hg | (split <;> exact hg))
    · cases hb

/-- A value of the context that calls of the form `W b` write: when every such
call in a list writes `v`, the value is `v` after the list if it was before or
the list has such a call. `I` is an invariant the single step may rely on. -/
theorem glRun_of_step {β : Type} (proj : GLState → β) (W : β → GLCall) (I : GLState → Prop)
    (hI : ∀ g c, I g → I (glApply g c))
    (hstep : ∀ g c v, I g → (∀ b, c = W b → b = v) → (proj g = v ∨ ∃ b, c = W b) →
      proj (glApply g c) = v)
    (cs : List GLCall) (g : GLState) (v : β) (hg0 : I g)
    (hall : ∀ b, W b ∈ cs → b = v) (hg : proj g = v ∨ ∃ b, W b ∈ cs) :
    proj (glRun g cs) = v := by
  induction cs generalizing g with
  | nil =>
    rcases hg with hg | ⟨b, hb⟩
    · exact hg
    · cases hb
  | cons c rest ih =>
    rw [glRun_cons]
    have hall1 : ∀ b, c = W b → b = v := fun b h => hall b (h ▸ List.mem_cons_self _ _)
    have hall2 : ∀ b, W b ∈ rest → b = v := fun b h => hall b (List.mem_cons_of_mem _ h)
    rcases hg with hg | ⟨b, hb⟩
    · exact ih _ (hI g c hg0) hall2 (Or.inl (hstep g c v hg0 hall1 (Or.inl hg)))
    · rcases List.mem_cons.1 hb with h | h
      · exact ih _ (hI g c hg0) hall2 (Or.inl (hstep g c v hg0 hall1 (Or.inr ⟨b, h.symm⟩)))
      · exact ih _ (hI g c hg0) hall2 (Or.inr ⟨b, h⟩)

theorem uniformBufferBase_glRun (cs : List GLCall) (g : GLState) (i v : Nat)
    (hall : ∀ b, .glBindBufferBase GL_UNIFORM_BUFFER i b ∈ cs → b = v)
    (hg : g.uniformBufferBase i = v ∨ ∃ b, .glBindBufferBase GL_UNIFORM_BUFFER i b ∈ cs) :
    (glRun g cs).uniformBufferBase i = v :=
  glRun_of_step (fun g => g.uniformBufferBase i) (fun b => .glBindBufferBase GL_UNIFORM_BUFFER i b)
    (fun _ => True) (fun _ _ _ => trivial)
    (fun g c v _ hc hg => uniformBufferBase_glApply g c i v hc hg) cs g v trivial hall hg

theorem shaderStorageBufferBase_glRun (cs : List GLCall) (g : GLState) (i v : Nat)
    (hall : ∀ b, .glBindBufferBase GL_SHADER_STORAGE_BUFFER i b ∈ cs → b = v)
    (hg : g.shaderStorageBufferBase i = v ∨
      ∃ b, .glBindBufferBase GL_SHADER_STORAGE_BUFFER i b ∈ cs) :
    (glRun g cs).shaderStorageBufferBase i = v :=
  glRun_of_step (fun g => g.shaderStorageBufferBase i)
    (fun b => .glBindBufferBase GL_SHADER_STORAGE_BUFFER i b)
    (fun _ => True) (fun _ _ _ => trivial)
    (fun g c v _ hc hg => shaderStorageBufferBase_glApply g c i v hc hg) cs g v trivial hall hg

theorem textureBinding2D_glRun (cs : List GLCall) (g : GLState) (u v : Nat)
    (hu : u ≠ g.activeTexture)
    (hall : ∀ t, .glBindTextureUnit u t ∈ cs → t = v)
    (hg : g.textureBinding2D u = v ∨ ∃ t, .glBindTextureUnit u t ∈ cs) :
    (glRun g cs).textureBinding2D u = v :=
  glRun_of_step (fun g => g.textureBinding2D u) (fun t => .glBindTextureUnit u t)
    (fun g => u ≠ g.activeTexture)
    (fun g c h => by show u ≠ (glApply g c).activeTexture; rw [activeTexture_glApply]; exact h)
    (fun g c v h hc hg => textureBinding2D_glApply g c u v h hc hg) cs g v hu hall hg

/-- A value that calls `W b` write is the same after two lists of calls when
both hold the same calls `W b` and all of these carry the same `b`. -/
theorem glRun_agree (proj : GLState → Nat) (W : Nat → GLCall)
    (hrun : ∀ cs g v, (∀ b, W b ∈ cs → b = v) → (proj g = v ∨ ∃ b, W b ∈ cs) →
      proj (glRun g cs) = v)
    (cs1 cs2 : List GLCall) (g : GLState)
    (hsame : ∀ b, W b ∈ cs2 ↔ W b ∈ cs1)
    (huniq : ∀ b1 b2, W b1 ∈ cs1 → W b2 ∈ cs1 → b1 = b2) :
    proj (glRun g cs2) = proj (glRun g cs1) := by
  by_cases hex : ∃ b, W b ∈ cs1
  · obtain ⟨b, hb⟩ := hex
    rw [hrun cs1 g b (fun b2 h2 => huniq b2 b h2 hb) (Or.inr ⟨b, hb⟩),
      hrun cs2 g b (fun b2 h2 => huniq b2 b ((hsame b2).1 h2) hb) (Or.inr ⟨b, (hsame b).2 hb⟩)]
  · have h1 : ∀ b, W b ∈ cs1 → b = proj g := fun b h => absurd ⟨b, h⟩ hex
    have h2 : ∀ b, W b ∈ cs2 → b = proj g := fun b h => absurd ⟨b, (hsame b).1 h⟩ hex
    rw [hrun cs1 g _ h1 (Or.inl rfl), hrun cs2 g _ h2 (Or.inl rfl)]

theorem mem_descriptorCallList_uniform (d : descriptor) (i b : Nat) :
    .glBindBufferBase GL_UNIFORM_BUFFER i b ∈ descriptorCallList d ↔
      d.type = .DESCRIPTOR_TYPE_UNIFORM_BUFFER ∧ d.binding = i ∧ d.handle = b := by
  rcases d with ⟨ty, bi, h⟩
  cases ty <;>
    simp [descriptorCallList, descriptorCalls, GL_UNIFORM_BUFFER, GL_SHADER_STORAGE_BUFFER,
      eq_comm]

theorem mem_descriptorCallList_storage (d : descriptor) (i b : Nat) :
    .glBindBufferBase GL_SHADER_STORAGE_BUFFER i b ∈ descriptorCallList d ↔
      d.type = .DESCRIPTOR_TYPE_SHADER_STORAGE_BUFFER ∧ d.binding = i ∧ d.handle = b := by
  rcases d with ⟨ty, bi, h⟩
  cases ty <;>
    simp [descriptorCallList, descriptorCalls, GL_UNIFORM_BUFFER, GL_SHADER_STORAGE_BUFFER,
      eq_comm]

theorem mem_descriptorCallList_texture (d : descriptor) (u t : Nat) :
    .glBindTextureUnit u t ∈ descriptorCallList d ↔
      d.type = .DESCRIPTOR_TYPE_COMBINED_TEXTURE_SAMPLER ∧ d.binding = u ∧ d.handle = t := by
  rcases d with ⟨ty, bi, h⟩
  cases ty <;> simp [descriptorCallList, descriptorCalls, eq_comm]

/-- The loop over descriptors of recognised types runs to its end. -/
theorem bindDescriptors_recognised (cb : command_buffer) (l : List descriptor)
    (issued : List GLCall) (hrec : ∀ d ∈ l, d.recognised) :
    bindDescriptors cb issued l = .returned cb (issued ++ l.flatMap descriptorCallList) := by
  induction l generalizing issued with
  | nil => simp [bindDescriptors]
  | cons d rest ih =>
    have hd := hrec d (List.mem_cons_self _ _)
    have hrest := fun issued2 => ih issued2 (fun d2 h2 => hrec d2 (List.mem_cons_of_mem _ h2))
    rcases d with ⟨ty, bi, h⟩
    rcases hd with hd | hd | hd <;> simp only at hd <;> subst hd <;>
      simp [bindDescriptors, descriptorCalls, hrest, descriptorCallList]

/-- In a list without two entries on the same slot, two entries of the same
type and binding carry the same handle. -/
theorem handle_eq_of_slot_eq (l : List descriptor)
    (hslots : (l.map (fun d => (d.type, d.binding))).Nodup) (d1 d2 : descriptor)
    (h1 : d1 ∈ l) (h2 : d2 ∈ l) (hty : d1.type = d2.type) (hb : d1.binding = d2.binding) :
    d1.handle = d2.handle := by
  have := List.inj_on_of_nodup_map hslots h1 h2 (by simp [hty, hb])
  rw [this]

/-! ## Lemmas on the format and binding of an attribute slot -/

theorem attribFormat_glApply (g : GLState) (c : GLCall) (k : Nat × Nat)
    (v : Int × Nat × Bool × Nat)
    (hc : ∀ b : Int × Nat × Bool × Nat,
      c = .glVertexArrayAttribFormat k.1 k.2 b.1 b.2.1 b.2.2.1 b.2.2.2 → b = v)
    (hg : g.attribFormat k = v ∨ ∃ b : Int × Nat × Bool × Nat,
      c = .glVertexArrayAttribFormat k.1 k.2 b.1 b.2.1 b.2.2.1 b.2.2.2) :
    (glApply g c).attribFormat k = v := by
  cases c
  case glVertexArrayAttribFormat vaobj idx size ty nm off =>
    by_cases h : k = (vaobj, idx)
    · subst h
      have := hc (size, ty, nm, off) rfl
      rw [← this]
      simp [glApply, setAt]
    · have h2 : ¬ (vaobj = k.1 ∧ idx = k.2) := by
        rintro ⟨rfl, rfl⟩; exact h rfl
      rcases hg with hg | ⟨b, hb⟩
      · simp [glApply, setAt, h, hg]
      · injection hb with e1 e2
        exact absurd ⟨e1, e2⟩ h2
  all_goals
    rcases hg with hg | ⟨b, hb⟩
    · simp only [glApply]
      first
        | exact hg
        | (split <;> first | exact hg | (split <;> exact hg))
    · cases hb

theorem attribBinding_glApply (g : GLState) (c : GLCall) (k : Nat × Nat) (v : Nat)
    (hc : ∀ b, c = .glVertexArrayAttribBinding k.1 k.2 b → b = v)
    (hg : g.attribBinding k = v ∨ ∃ b, c = .glVertexArrayAttribBinding k.1 k.2 b) :
    (glApply g c).attribBinding k = v := by
  cases c
  case glVertexArrayAttribBinding vaobj idx bi =>
    by_cases h : k = (vaobj, idx)
    · subst h
      have := hc bi rfl
      simp [glApply, setAt, this]
    · have h2 : ¬ (vaobj = k.1 ∧ idx = k.2) := by
        rintro ⟨rfl, rfl⟩; exact h rfl
      rcases hg with hg | ⟨b, hb⟩
      · simp [glApply, setAt, h, hg]
      · injection hb with e1 e2
        exact absurd ⟨e1, e2⟩ h2
  all_goals
    rcases hg with hg | ⟨b, hb⟩
    · simp only [glApply]
      first
        | exact hg
        | (split <;> first | exact hg | (split <;> exact hg))
    · cases hb

/-- When every call that sets the format of an attribute slot sets it to `v`,
the slot has format `v` after the calls if one of them sets it. -/
theorem attribFormat_glRun (cs : List GLCall) (g : GLState) (k : Nat × Nat)
    (v : Int × Nat × Bool × Nat)
    (hall : ∀ b : Int × Nat × Bool × Nat,
      .glVertexArrayAttribFormat k.1 k.2 b.1 b.2.1 b.2.2.1 b.2.2.2 ∈ cs → b = v)
    (hg : g.attribFormat k = v ∨ ∃ b : Int × Nat × Bool × Nat,
      .glVertexArrayAttribFormat k.1 k.2 b.1 b.2.1 b.2.2.1 b.2.2.2 ∈ cs) :
    (glRun g cs).attribFormat k = v :=
  glRun_of_step (fun g => g.attribFormat k)
    (fun b => .glVertexArrayAttribFormat k.1 k.2 b.1 b.2.1 b.2.2.1 b.2.2.2)
    (fun _ => True) (fun _ _ _ => trivial)
    (fun g c v _ hc hg => attribFormat_glApply g c k v hc hg) cs g v trivial hall hg

/-- When every call that attaches an attribute slot attaches it to binding `v`,
the slot is attached to `v` after the calls if one of them attaches it. -/
theorem attribBinding_glRun (cs : List GLCall) (g : GLState) (k : Nat × Nat) (v : Nat)
    (hall : ∀ b, .glVertexArrayAttribBinding k.1 k.2 b ∈ cs → b = v)
    (hg : g.attribBinding k = v ∨ ∃ b, .glVertexArrayAttribBinding k.1 k.2 b ∈ cs) :
    (glRun g cs).attribBinding k = v :=
  glRun_of_step (fun g => g.attribBinding k) (fun b => .glVertexArrayAttribBinding k.1 k.2 b)
    (fun _ => True) (fun _ _ _ => trivial)
    (fun g c v _ hc hg => attribBinding_glApply g c k v hc hg) cs g v trivial hall hg

/-! ## Lemmas on sequences of commands -/

theorem bindDescriptors_returned (cb cb1 : command_buffer) (cs : List GLCall)
    (l : List descriptor) (issued : List GLCall)
    (h : bindDescriptors cb issued l = .returned cb1 cs) : cb1 = cb := by
  induction l generalizing issued with
  | nil =>
    simp only [bindDescriptors] at h
    injection h with h1 _
    exact h1.symm
  | cons d rest ih =>
    simp only [bindDescriptors] at h
    split at h
    · simp [SAIL_LOG_FATAL] at h
    · exact ih _ h

/-- A command that returns leaves the command buffer as `Command.cache` says. -/
theorem exec_returned_cache (ext : Externals) (cb cb1 : command_buffer) (cs : List GLCall)
    (c : Command) (h : c.exec ext cb = .returned cb1 cs) : cb1 = c.cache cb := by
  cases c with
  | begin_render target =>
    simp only [Command.exec, graphics_begin_render] at h
    injection h with h1 _; exact h1.symm
  | begin_render_default =>
    simp only [Command.exec, graphics_begin_render_default, graphics_begin_render] at h
    injection h with h1 _; exact h1.symm
  | end_render =>
    simp only [Command.exec, graphics_end_render, graphics_begin_render_default,
      graphics_begin_render] at h
    injection h with h1 _; exact h1.symm
  | bind_pipeline pl =>
    simp only [Command.exec, graphics_bind_pipeline] at h
    split at h
    · simp [assert_fail] at h
    · split at h
      · simp [assert_fail] at h
      · split at h
        · simp [SAIL_LOG_FATAL] at h
        · split at h
          · simp [SAIL_LOG_FATAL] at h
          · injection h with h1 _; exact h1.symm
  | bind_descriptor_set set =>
    simp only [Command.exec, graphics_bind_descriptor_set] at h
    exact bindDescriptors_returned cb cb1 cs _ _ h
  | bind_vertex_buffer bh b st =>
    simp only [Command.exec, graphics_bind_vertex_buffer] at h
    split at h
    · simp [assert_fail] at h
    · split at h
      · simp [assert_fail] at h
      · injection h with h1 _; exact h1.symm
  | bind_index_buffer bh t =>
    simp only [Command.exec, graphics_bind_index_buffer] at h
    split at h
    · simp [assert_fail] at h
    · split at h
      · simp [assert_fail] at h
      · injection h with h1 _; exact h1.symm
  | draw vc ic fv fi =>
    simp only [Command.exec, graphics_draw] at h
    split at h
    · simp [assert_fail] at h
    · split at h
      · simp [SAIL_LOG_FATAL] at h
      · split at h <;> (injection h with h1 _; exact h1.symm)
  | draw_indexed n ic fv fi =>
    simp only [Command.exec, graphics_draw_indexed] at h
    split at h
    · simp [SAIL_LOG_FATAL] at h
    · split at h <;> split at h <;>
        first
          | (injection h with h1 _; exact h1.symm)
          | simp [SAIL_LOG_FATAL] at h

/-- A run that returns leaves the command buffer as `cacheAfter` says. -/
theorem run_returned_cache (ext : Externals) (l : List Command) (cb cb1 : command_buffer)
    (issued cs : List GLCall) (h : run ext cb issued l = .returned cb1 cs) :
    cb1 = cacheAfter cb l := by
  induction l generalizing cb issued with
  | nil =>
    simp only [run] at h
    injection h with h1 _
    exact h1.symm
  | cons c rest ih =>
    simp only [run] at h
    split at h
    · rename_i cb2 cs2 hexec
      have h2 := exec_returned_cache ext cb cb2 cs2 c hexec
      have h3 := ih _ _ h
      rw [h3, h2]
      rfl
    · simp at h

theorem cacheAfter_append (cb : command_buffer) (s t : List Command) :
    cacheAfter cb (s ++ t) = cacheAfter (cacheAfter cb s) t := by
  simp [cacheAfter, List.foldl_append]

theorem cacheAfter_others (l : List Command) (cb : command_buffer)
    (h : ∀ c ∈ l, c.isOther = true) : cacheAfter cb l = cb := by
  induction l generalizing cb with
  | nil => rfl
  | cons c rest ih =>
    have hc : c.cache cb = cb := by
      have := h c (List.mem_cons_self _ _)
      cases c <;> simp_all [Command.isOther, Command.cache]
    show cacheAfter (c.cache cb) rest = cb
    rw [hc]
    exact ih cb (fun c2 h2 => h c2 (List.mem_cons_of_mem _ h2))

theorem run_calls_issued (ext : Externals) (l : List Command) (cb : command_buffer)
    (issued : List GLCall) :
    (run ext cb issued l).calls = issued ++ (run ext cb [] l).calls := by
  induction l generalizing cb issued with
  | nil => simp [run, Outcome.calls]
  | cons c rest ih =>
    simp only [run]
    cases hexec : c.exec ext cb with
    | returned cb1 cs =>
      simp only [List.nil_append]
      rw [ih cb1 (issued ++ cs), ih cb1 cs, List.append_assoc]
    | aborted fault cs => simp [Outcome.calls]

/-- The calls of a run start with the calls of each shorter run. -/
theorem run_calls_append (ext : Externals) (s t : List Command) (cb : command_buffer)
    (issued : List GLCall) :
    ∃ extra, (run ext cb issued (s ++ t)).calls = (run ext cb issued s).calls ++ extra := by
  induction s generalizing cb issued with
  | nil =>
    refine ⟨(run ext cb [] t).calls, ?_⟩
    rw [List.nil_append, run_calls_issued]
    simp [run, Outcome.calls]
  | cons c rest ih =>
    simp only [List.cons_append, run]
    cases hexec : c.exec ext cb with
    | returned cb1 cs => exact ih cb1 (issued ++ cs)
    | aborted fault cs => exact ⟨[], by simp⟩

/-! ## C1: bind a pipeline, then draw -/

/-- C1, as stated, fails, in two ways. The claim quantifies over every command
buffer and every pipeline with a valid handle and a recognised topology, but the
bind is guarded: with a command buffer whose `vao` is `invalid_handle` the first
assert of `graphics_bind_pipeline` ends the process, and with a pipeline whose
`cullFace` is unrecognised the fatal log does; in both runs of
`bind_pipeline; draw(3, 1, 0, 0)` no draw call is issued. And the claim
quantifies over every `firstVertex`, but the `u32` goes to a `GLint`: with
`firstVertex = 2147483648` the one draw call is
`glDrawArrays(GL_TRIANGLES, -2147483648, 3)`, not a draw from vertex 2147483648. -/
theorem C1_unguarded_bind_issues_no_draw :
    (trianglePipeline.handle ≠ sampleExt.invalid_handle ∧
      ¬ issuesExactlyOneDraw
          (run sampleExt { vao := 0, pipelineTopology := .TOPOLOGY_POINTS, indexType := 0 } []
            [.bind_pipeline trianglePipeline, .draw 3 1 0 0])
          (.glDrawArrays GL_TRIANGLES 0 3)) ∧
    (({ trianglePipeline with cullFace := .unrecognised 7 } : pipeline).handle
        ≠ sampleExt.invalid_handle ∧
      ¬ issuesExactlyOneDraw
          (run sampleExt sampleBuffer []
            [.bind_pipeline { trianglePipeline with cullFace := .unrecognised 7 }, .draw 3 1 0 0])
          (.glDrawArrays GL_TRIANGLES 0 3)) ∧
    (¬ issuesExactlyOneDraw
          (run sampleExt sampleBuffer []
            [.bind_pipeline trianglePipeline, .draw 3 1 2147483648 0])
          (.glDrawArrays GL_TRIANGLES 2147483648 3) ∧
      issuesExactlyOneDraw
          (run sampleExt sampleBuffer []
            [.bind_pipeline trianglePipeline, .draw 3 1 2147483648 0])
          (.glDrawArrays GL_TRIANGLES (-2147483648) 3)) := by
  decide

/-- C1, amended: for every command buffer with a valid `vao`, every pipeline
with a valid handle, a recognised `polygonMode` and `cullFace` and a topology in
POINTS, LINES, TRIANGLES, and every `vertexCount`, `firstVertex` and
`instanceCount` below `2^31` with `instanceCount >= 1`, and every
`firstInstance`: `graphics_bind_pipeline` returns, the `graphics_draw` that
follows returns having issued exactly one call, and that call is the only draw
call of the two together. It is `glDrawArrays(mode, firstVertex, vertexCount)`
when `instanceCount == 1` and
`glDrawArraysInstanced(mode, firstVertex, vertexCount, instanceCount)` when
`instanceCount > 1`, with `mode` the code of the pipeline topology, and the
three topologies have three distinct codes. -/
theorem C1_bind_then_draw (ext : Externals) (cb : command_buffer) (pl : pipeline)
    (vertexCount instanceCount firstVertex firstInstance : Nat)
    (hvao : cb.vao ≠ ext.invalid_handle) (hh : pl.handle ≠ ext.invalid_handle)
    (hpm : polygonModeCode pl.polygonMode ≠ none) (hcm : cullModeCode pl.cullFace ≠ none)
    (htop : pl.topology = .TOPOLOGY_POINTS ∨ pl.topology = .TOPOLOGY_LINES ∨
      pl.topology = .TOPOLOGY_TRIANGLES)
    (hic : instanceCount ≥ 1)
    (hvc31 : vertexCount < 2 ^ 31) (hfv31 : firstVertex < 2 ^ 31)
    (hic31 : instanceCount < 2 ^ 31) :
    ∃ (mode : Nat) (call : GLCall),
      ((pl.topology = .TOPOLOGY_POINTS ∧ mode = GL_POINTS) ∨
       (pl.topology = .TOPOLOGY_LINES ∧ mode = GL_LINES) ∨
       (pl.topology = .TOPOLOGY_TRIANGLES ∧ mode = GL_TRIANGLES)) ∧
      (∃ cb1 bindCalls,
        graphics_bind_pipeline ext cb pl = .returned cb1 bindCalls ∧
        graphics_draw cb1 vertexCount instanceCount firstVertex firstInstance =
          .returned cb1 [call]) ∧
      (run ext cb [] [.bind_pipeline pl,
          .draw vertexCount instanceCount firstVertex firstInstance]).isReturned = true ∧
      issuesExactlyOneDraw
        (run ext cb [] [.bind_pipeline pl,
          .draw vertexCount instanceCount firstVertex firstInstance]) call ∧
      (instanceCount = 1 →
        call = .glDrawArrays mode (firstVertex : Int) (vertexCount : Int)) ∧
      (instanceCount > 1 →
        call = .glDrawArraysInstanced mode (firstVertex : Int) (vertexCount : Int)
          (instanceCount : Int)) ∧
      (GL_POINTS ≠ GL_LINES ∧ GL_POINTS ≠ GL_TRIANGLES ∧ GL_LINES ≠ GL_TRIANGLES) ∧
      (∀ t1 t2 : pipeline_topology, topologyCode t1 ≠ none →
        topologyCode t1 = topologyCode t2 → t1 = t2) := by
  obtain ⟨pm, hpm⟩ := Option.ne_none_iff_exists'.1 hpm
  obtain ⟨cm, hcm⟩ := Option.ne_none_iff_exists'.1 hcm
  have hbind := bind_pipeline_returned ext cb pl pm cm hvao hh hpm hcm
  have hdraw : ∀ mode, topologyCode pl.topology = some mode →
      graphics_draw { cb with pipelineTopology := pl.topology } vertexCount instanceCount
          firstVertex firstInstance =
        .returned { cb with pipelineTopology := pl.topology }
          [expectedDraw mode vertexCount instanceCount firstVertex] := by
    intro mode hmode
    unfold graphics_draw expectedDraw
    simp only [hmode]
    by_cases h1 : instanceCount = 1
    · simp [h1]
    · have : 1 ≤ instanceCount := hic
      simp [h1, this]
  have hmode : ∃ mode, topologyCode pl.topology = some mode ∧
      ((pl.topology = .TOPOLOGY_POINTS ∧ mode = GL_POINTS) ∨
       (pl.topology = .TOPOLOGY_LINES ∧ mode = GL_LINES) ∨
       (pl.topology = .TOPOLOGY_TRIANGLES ∧ mode = GL_TRIANGLES)) := by
    rcases htop with h | h | h
    · exact ⟨GL_POINTS, by rw [h]; rfl, Or.inl ⟨h, rfl⟩⟩
    · exact ⟨GL_LINES, by rw [h]; rfl, Or.inr (Or.inl ⟨h, rfl⟩)⟩
    · exact ⟨GL_TRIANGLES, by rw [h]; rfl, Or.inr (Or.inr ⟨h, rfl⟩)⟩
  obtain ⟨mode, hcode, hcases⟩ := hmode
  have hrun : run ext cb [] [.bind_pipeline pl,
      .draw vertexCount instanceCount firstVertex firstInstance] =
      .returned { cb with pipelineTopology := pl.topology }
        (([ .glUseProgram pl.handle,
           .glFrontFace (if pl.frontFace = .FRONT_FACE_CW then GL_CW else GL_CCW),
           .glPolygonMode GL_FRONT_AND_BACK pm,
           .glCullFace cm ]
          ++ layoutCalls ext cb.vao pl.attributes pl.bindingDescriptions)
          ++ [expectedDraw mode vertexCount instanceCount firstVertex]) := by
    simp only [run, Command.exec, hbind, hdraw mode hcode, List.nil_append]
  refine ⟨mode, expectedDraw mode vertexCount instanceCount firstVertex, hcases,
    ⟨_, _, hbind, hdraw mode hcode⟩, ?_, ?_, ?_, ?_, ?_, ?_⟩
  · rw [hrun]; rfl
  · unfold issuesExactlyOneDraw
    rw [hrun]
    simp only [Outcome.calls, List.filter_append, filter_isDraw_layoutCalls]
    unfold expectedDraw
    by_cases h1 : instanceCount = 1 <;> simp [h1, GLCall.isDraw]
  · intro h1
    simp [expectedDraw, h1, i32_cast_of_lt _ hvc31, i32_cast_of_lt _ hfv31]
  · intro h1
    have : instanceCount ≠ 1 := by omega
    simp [expectedDraw, this, i32_cast_of_lt _ hvc31, i32_cast_of_lt _ hfv31,
      i32_cast_of_lt _ hic31]
  · decide
  · intro t1 t2 h1 h12
    cases t1 <;> cases t2 <;> simp_all [topologyCode, GL_POINTS, GL_LINES, GL_TRIANGLES]

/-- C1, the scenarios of the claim: TRIANGLES with `draw(3, 1, 0, 0)` gives one
non-instanced triangle draw over vertices `[0, 3)`, and `draw(3, 4, 0, 0)` one draw,
the instanced one, of 3 vertices and 4 instances. -/
theorem C1_bind_then_draw_witness :
    (∃ (mode : Nat) (call : GLCall),
      ((trianglePipeline.topology = .TOPOLOGY_POINTS ∧ mode = GL_POINTS) ∨
       (trianglePipeline.topology = .TOPOLOGY_LINES ∧ mode = GL_LINES) ∨
       (trianglePipeline.topology = .TOPOLOGY_TRIANGLES ∧ mode = GL_TRIANGLES)) ∧
      issuesExactlyOneDraw
        (run sampleExt sampleBuffer [] [.bind_pipeline trianglePipeline, .draw 3 4 0 0]) call ∧
      call = .glDrawArraysInstanced mode 0 3 4) ∧
    issuesExactlyOneDraw
      (run sampleExt sampleBuffer [] [.bind_pipeline trianglePipeline, .draw 3 1 0 0])
      (.glDrawArrays GL_TRIANGLES 0 3) ∧
    issuesExactlyOneDraw
      (run sampleExt sampleBuffer [] [.bind_pipeline trianglePipeline, .draw 3 4 0 0])
      (.glDrawArraysInstanced GL_TRIANGLES 0 3 4) := by
  refine ⟨?_, by decide, by decide⟩
  obtain ⟨mode, call, hm, -, -, hone, -, hinst, -⟩ :=
    C1_bind_then_draw sampleExt sampleBuffer trianglePipeline 3 4 0 0
      (by decide) (by decide) (by decide) (by decide) (by decide) (by decide)
      (by norm_num) (by norm_num) (by norm_num)
  exact ⟨mode, call, hm, hone, hinst (by decide)⟩

/-! ## C2: the vertex layout a bind applies -/

/-- C2, as stated, fails, in two ways. The claim is about every pipeline, but
the bind is guarded: the scenario pipeline with the handle `invalid_handle`
(respectively an unrecognised `polygonMode`) lists its one binding once and its
attribute matches it, yet the bind ends at the assert (respectively at the
fatal log) before the layout loops, and attribute slot 0 is never enabled. And
the claim is about every matched attribute, but a slot keeps what the last
matched attribute at its location gives it: in `twoFormatsPipeline` the first
attribute matches binding 0, yet after the bind slot 0 has the format of the
second, and in `twoBindingsPipeline` the first attribute matches binding 0,
yet after the bind slot 0 is associated with binding 1. -/
theorem C2_unguarded_bind_applies_no_layout :
    ((({ trianglePipeline with handle := 0 } : pipeline).bindingDescriptions.map
        (fun d => d.binding)).Nodup ∧
      GLCall.glEnableVertexArrayAttrib sampleBuffer.vao 0 ∉
        (graphics_bind_pipeline sampleExt sampleBuffer
          { trianglePipeline with handle := 0 }).calls ∧
      GLCall.glEnableVertexArrayAttrib sampleBuffer.vao 0 ∉
        (graphics_bind_pipeline sampleExt sampleBuffer
          { trianglePipeline with polygonMode := .unrecognised 3 }).calls) ∧
    ((twoFormatsPipeline.bindingDescriptions.map (fun d => d.binding)).Nodup ∧
      (⟨0, 0, 3, false, 0⟩ : vertex_attribute) ∈ twoFormatsPipeline.attributes ∧
      (⟨0, .INPUT_RATE_VERTEX⟩ : binding_description) ∈ twoFormatsPipeline.bindingDescriptions ∧
      (graphics_bind_pipeline sampleExt sampleBuffer twoFormatsPipeline).isReturned = true ∧
      (glRun initialGL (graphics_bind_pipeline sampleExt sampleBuffer twoFormatsPipeline).calls
        ).attribFormat (sampleBuffer.vao, 0) ≠
        (i32_cast (sampleExt.get_attribute_format_size 3), sampleExt.get_attribute_format 3,
          false, 0) ∧
      (glRun initialGL (graphics_bind_pipeline sampleExt sampleBuffer twoFormatsPipeline).calls
        ).attribFormat (sampleBuffer.vao, 0) = (2, 0x1406, true, 12)) ∧
    ((twoBindingsPipeline.bindingDescriptions.map (fun d => d.binding)).Nodup ∧
      (⟨0, 0, 3, false, 0⟩ : vertex_attribute) ∈ twoBindingsPipeline.attributes ∧
      (⟨0, .INPUT_RATE_VERTEX⟩ : binding_description) ∈ twoBindingsPipeline.bindingDescriptions ∧
      (graphics_bind_pipeline sampleExt sampleBuffer twoBindingsPipeline).isReturned = true ∧
      (glRun initialGL (graphics_bind_pipeline sampleExt sampleBuffer twoBindingsPipeline).calls
        ).attribBinding (sampleBuffer.vao, 0) ≠ 0) := by
  decide

/-- C2, amended: for every command buffer with a valid `vao`, every pipeline with
a valid handle and a recognised `polygonMode` and `cullFace` whose
`bindingDescriptions` list no binding twice, and every attribute `a` whose
binding equals the binding of a description `d` and which is the only attribute
at location `a.location` whose binding a description lists:
`graphics_bind_pipeline` returns, and in the context after the bind, from any
context before it, slot `a.location` of the buffer's vao is enabled, has the
format (component count and type derived from `a.format`, `a.normalized`,
`a.offset`), is associated with binding slot `d.binding`, and binding slot
`d.binding` has divisor 0 when `d.inputRate` is VERTEX and 1 when it is
INSTANCE. The four calls that do this stand together, in this order, among the
calls of the bind. -/
theorem C2_bind_applies_layout (ext : Externals) (cb : command_buffer) (pl : pipeline)
    (a : vertex_attribute) (d : binding_description)
    (hvao : cb.vao ≠ ext.invalid_handle) (hh : pl.handle ≠ ext.invalid_handle)
    (hpm : polygonModeCode pl.polygonMode ≠ none) (hcm : cullModeCode pl.cullFace ≠ none)
    (hnodup : (pl.bindingDescriptions.map (fun d => d.binding)).Nodup)
    (ha : a ∈ pl.attributes) (hd : d ∈ pl.bindingDescriptions)
    (hmatch : a.binding = d.binding)
    (honly : ∀ a2 ∈ pl.attributes, a2.location = a.location →
      (∃ d2 ∈ pl.bindingDescriptions, a2.binding = d2.binding) → a2 = a) :
    ∃ (cb1 : command_buffer) (calls : List GLCall) (divisor : Nat),
      graphics_bind_pipeline ext cb pl = .returned cb1 calls ∧
      (d.inputRate = .INPUT_RATE_VERTEX → divisor = 0) ∧
      (d.inputRate = .INPUT_RATE_INSTANCE → divisor = 1) ∧
      (∃ before after, calls = before ++
        [ .glEnableVertexArrayAttrib cb.vao a.location,
          .glVertexArrayAttribFormat cb.vao a.location
            (i32_cast (ext.get_attribute_format_size a.format))
            (ext.get_attribute_format a.format) a.normalized a.offset,
          .glVertexArrayAttribBinding cb.vao a.location d.binding,
          .glVertexArrayBindingDivisor cb.vao d.binding divisor ] ++ after) ∧
      (∀ g : GLState,
        (glRun g calls).attribEnabled (cb.vao, a.location) = true ∧
        (glRun g calls).attribFormat (cb.vao, a.location) =
          (i32_cast (ext.get_attribute_format_size a.format),
            ext.get_attribute_format a.format, a.normalized, a.offset) ∧
        (glRun g calls).attribBinding (cb.vao, a.location) = d.binding ∧
        (glRun g calls).bindingDivisor (cb.vao, d.binding) = divisor) := by
  obtain ⟨pm, hpm⟩ := Option.ne_none_iff_exists'.1 hpm
  obtain ⟨cm, hcm⟩ := Option.ne_none_iff_exists'.1 hcm
  have hbind := bind_pipeline_returned ext cb pl pm cm hvao hh hpm hcm
  obtain ⟨before, after, hblock⟩ :=
    layoutCalls_block ext cb.vao pl.attributes pl.bindingDescriptions a d ha hd
  have hattr : attributeCalls ext cb.vao d a =
      [ .glEnableVertexArrayAttrib cb.vao a.location,
        .glVertexArrayAttribFormat cb.vao a.location
          (i32_cast (ext.get_attribute_format_size a.format))
          (ext.get_attribute_format a.format) a.normalized a.offset,
        .glVertexArrayAttribBinding cb.vao a.location d.binding,
        .glVertexArrayBindingDivisor cb.vao d.binding
          (if d.inputRate = .INPUT_RATE_VERTEX then 0 else 1) ] := by
    simp [attributeCalls, hmatch]
  have hmemLayout : ∀ c, c ∈ attributeCalls ext cb.vao d a →
      c ∈ layoutCalls ext cb.vao pl.attributes pl.bindingDescriptions := by
    intro c hc
    exact (mem_layoutCalls ext cb.vao pl.attributes c pl.bindingDescriptions).2
      ⟨d, hd, a, ha, hc⟩
  have hinj := List.inj_on_of_nodup_map hnodup
  refine ⟨_, _, (if d.inputRate = .INPUT_RATE_VERTEX then 0 else 1), hbind, ?_, ?_, ?_, ?_⟩
  · intro h; simp [h]
  · intro h; simp [h]
  · refine ⟨[ .glUseProgram pl.handle,
           .glFrontFace (if pl.frontFace = .FRONT_FACE_CW then GL_CW else GL_CCW),
           .glPolygonMode GL_FRONT_AND_BACK pm,
           .glCullFace cm ] ++ before, after, ?_⟩
    rw [hblock, hattr]
    simp
  · intro g
    refine ⟨?_, ?_, ?_, ?_⟩
    · rw [attribEnabled_glRun]
      right
      apply List.mem_append_right
      apply hmemLayout
      rw [hattr]; simp
    · apply attribFormat_glRun
      · intro b hb
        simp only [List.mem_append, List.mem_cons, List.mem_singleton, List.not_mem_nil,
          or_false, reduceCtorEq, false_or] at hb
        obtain ⟨d2, hd2, a2, ha2, hmem⟩ :=
          (mem_layoutCalls ext cb.vao pl.attributes _ pl.bindingDescriptions).1 hb
        obtain ⟨hb2, h | h | h | h⟩ := (mem_attributeCalls ext cb.vao d2 a2 _).1 hmem
        · cases h
        · injection h with _ e2 e3 e4 e5 e6
          have haa : a2 = a := honly a2 ha2 e2.symm ⟨d2, hd2, hb2⟩
          rw [haa] at e3 e4 e5 e6
          rcases b with ⟨b1, b2, b3, b4⟩
          simp only at e3 e4 e5 e6
          rw [e3, e4, e5, e6]
        · cases h
        · cases h
      · right
        refine ⟨(i32_cast (ext.get_attribute_format_size a.format),
          ext.get_attribute_format a.format, a.normalized, a.offset), ?_⟩
        apply List.mem_append_right
        apply hmemLayout
        rw [hattr]
        simp
    · apply attribBinding_glRun
      · intro b hb
        simp only [List.mem_append, List.mem_cons, List.mem_singleton, List.not_mem_nil,
          or_false, reduceCtorEq, false_or] at hb
        obtain ⟨d2, hd2, a2, ha2, hmem⟩ :=
          (mem_layoutCalls ext cb.vao pl.attributes _ pl.bindingDescriptions).1 hb
        obtain ⟨hb2, h | h | h | h⟩ := (mem_attributeCalls ext cb.vao d2 a2 _).1 hmem
        · cases h
        · cases h
        · injection h with _ e2 e3
          have haa : a2 = a := honly a2 ha2 e2.symm ⟨d2, hd2, hb2⟩
          rw [haa] at hb2
          have hdd : d2 = d := hinj hd2 hd (hb2.symm.trans hmatch)
          rw [e3, hdd]
        · cases h
      · right
        refine ⟨d.binding, ?_⟩
        apply List.mem_append_right
        apply hmemLayout
        rw [hattr]
        simp
    · apply bindingDivisor_glRun
      · intro dv hdv
        simp only [List.mem_append, List.mem_cons, List.mem_singleton, List.not_mem_nil,
          or_false, reduceCtorEq, false_or] at hdv
        obtain ⟨d2, hd2, a2, -, hmem⟩ :=
          (mem_layoutCalls ext cb.vao pl.attributes _ pl.bindingDescriptions).1 hdv
        obtain ⟨-, h | h | h | h⟩ := (mem_attributeCalls ext cb.vao d2 a2 _).1 hmem
        · cases h
        · cases h
        · cases h
        · injection h with _ e2 e3
          have hdd : d2 = d := hinj hd2 hd e2.symm
          rw [e3, hdd]
      · right
        refine ⟨(if d.inputRate = .INPUT_RATE_VERTEX then 0 else 1), ?_⟩
        apply List.mem_append_right
        apply hmemLayout
        rw [hattr]
        simp

/-- C2 on the pipeline of the spec scenario, from the initial context: slot 0 of
vertex array 1 is enabled, has three floats, not normalised, at offset 0, is
attached to binding 0, and binding 0 has divisor 0. -/
theorem C2_bind_applies_layout_witness :
    ∃ (cb1 : command_buffer) (calls : List GLCall) (divisor : Nat),
      graphics_bind_pipeline sampleExt sampleBuffer trianglePipeline = .returned cb1 calls ∧
      divisor = 0 ∧
      (∃ before after, calls = before ++
        [ .glEnableVertexArrayAttrib 1 0,
          .glVertexArrayAttribFormat 1 0 3 0x1406 false 0,
          .glVertexArrayAttribBinding 1 0 0,
          .glVertexArrayBindingDivisor 1 0 divisor ] ++ after) ∧
      (glRun initialGL calls).attribEnabled (1, 0) = true ∧
      (glRun initialGL calls).attribFormat (1, 0) = (3, 0x1406, false, 0) ∧
      (glRun initialGL calls).attribBinding (1, 0) = 0 ∧
      (glRun initialGL calls).bindingDivisor (1, 0) = divisor := by
  obtain ⟨cb1, calls, divisor, h1, h2, -, h4, h5⟩ :=
    C2_bind_applies_layout sampleExt sampleBuffer trianglePipeline
      { location := 0, binding := 0, format := 3, normalized := false, offset := 0 }
      { binding := 0, inputRate := .INPUT_RATE_VERTEX }
      (by decide) (by decide) (by decide) (by decide) (by decide) (by decide) (by decide) rfl
      (by decide)
  exact ⟨cb1, calls, divisor, h1, h2 rfl, h4, (h5 initialGL).1, (h5 initialGL).2.1,
    (h5 initialGL).2.2.1, (h5 initialGL).2.2.2⟩

/-! ## C3: attributes without a matching binding -/

/-- C3, as stated, fails: the first attribute of `sharedLocationPipeline` names
binding 5, which no description has, yet slot 0, its location, is enabled by
the bind, on behalf of the second attribute, which shares the location and
matches binding 0. -/
theorem C3_shared_location_is_enabled :
    (⟨0, 5, 2, false, 0⟩ : vertex_attribute) ∈ sharedLocationPipeline.attributes ∧
    (∀ d ∈ sharedLocationPipeline.bindingDescriptions, d.binding ≠ 5) ∧
    GLCall.glEnableVertexArrayAttrib sampleBuffer.vao 0 ∈
      (graphics_bind_pipeline sampleExt sampleBuffer sharedLocationPipeline).calls := by
  decide

/-- C3, amended: for all pipelines P and every attribute `a` of P: if no entry
of `P.bindingDescriptions` has the binding of `a` or of any other attribute of P
at location `a.location`, then `graphics_bind_pipeline` issues no
`glEnableVertexArrayAttrib` call for `a.location`, the inner loop issues no call
at all for `a`, the slot is enabled after the bind only if it was before, and
the skip raises no error: the bind returns whenever its two asserts pass and
`polygonMode` and `cullFace` are recognised. -/
theorem C3_unmatched_attribute_skipped (ext : Externals) (cb : command_buffer) (pl : pipeline)
    (a : vertex_attribute) (ha : a ∈ pl.attributes)
    (hskip : ∀ a2 ∈ pl.attributes, a2.location = a.location →
      ∀ d ∈ pl.bindingDescriptions, d.binding ≠ a2.binding) :
    (∀ vao, GLCall.glEnableVertexArrayAttrib vao a.location ∉
      (graphics_bind_pipeline ext cb pl).calls) ∧
    (∀ d ∈ pl.bindingDescriptions, attributeCalls ext cb.vao d a = []) ∧
    (∀ g : GLState,
      (glRun g (graphics_bind_pipeline ext cb pl).calls).attribEnabled (cb.vao, a.location)
        = true → g.attribEnabled (cb.vao, a.location) = true) ∧
    (cb.vao ≠ ext.invalid_handle → pl.handle ≠ ext.invalid_handle →
      polygonModeCode pl.polygonMode ≠ none → cullModeCode pl.cullFace ≠ none →
      (graphics_bind_pipeline ext cb pl).isReturned = true) := by
  have hnone : ∀ vao, GLCall.glEnableVertexArrayAttrib vao a.location ∉
      (graphics_bind_pipeline ext cb pl).calls := by
    intro vao hmem
    unfold graphics_bind_pipeline at hmem
    split at hmem
    · simp [assert_fail, Outcome.calls] at hmem
    · split at hmem
      · simp [assert_fail, Outcome.calls] at hmem
      · simp only at hmem
        split at hmem
        · simp [SAIL_LOG_FATAL, Outcome.calls] at hmem
        · split at hmem
          · simp [SAIL_LOG_FATAL, Outcome.calls] at hmem
          · simp only [Outcome.calls, List.mem_append, List.mem_cons, List.mem_singleton,
              List.not_mem_nil, or_false, reduceCtorEq, false_or] at hmem
            obtain ⟨d, hd, a2, ha2, hc⟩ :=
              (mem_layoutCalls ext _ pl.attributes _ pl.bindingDescriptions).1 hmem
            obtain ⟨hb, h | h | h | h⟩ := (mem_attributeCalls ext _ d a2 _).1 hc
            · injection h with _ e2
              exact hskip a2 ha2 e2.symm d hd hb.symm
            · cases h
            · cases h
            · cases h
  refine ⟨hnone, ?_, ?_, ?_⟩
  · intro d hd
    have h := hskip a ha rfl d hd
    simp [attributeCalls, Ne.symm h]
  · intro g hg
    rcases (attribEnabled_glRun _ _ g).1 hg with h | h
    · exact h
    · exact absurd h (hnone cb.vao)
  · intro hvao hh hpm hcm
    obtain ⟨pm, hpm⟩ := Option.ne_none_iff_exists'.1 hpm
    obtain ⟨cm, hcm⟩ := Option.ne_none_iff_exists'.1 hcm
    rw [bind_pipeline_returned ext cb pl pm cm hvao hh hpm hcm]
    rfl

/-- C3 on `unmatchedAttributePipeline`: its second attribute names binding 5,
slot 1 is left alone and the bind returns. -/
theorem C3_unmatched_attribute_skipped_witness :
    (∀ vao, GLCall.glEnableVertexArrayAttrib vao 1 ∉
      (graphics_bind_pipeline sampleExt sampleBuffer unmatchedAttributePipeline).calls) ∧
    (graphics_bind_pipeline sampleExt sampleBuffer unmatchedAttributePipeline).isReturned
      = true := by
  have h := C3_unmatched_attribute_skipped sampleExt sampleBuffer unmatchedAttributePipeline
    ⟨1, 5, 2, false, 12⟩ (by decide) (by decide)
  exact ⟨h.1, h.2.2.2 (by decide) (by decide) (by decide) (by decide)⟩

/-! ## C4: the indexed draw after the binds -/

/-- C4, as stated, fails, in four ways. The claim is about every index-buffer
handle and about any other bind call in between, but the binds are guarded:
with the handle `invalid_handle` the assert of `graphics_bind_index_buffer` ends
the process, and a descriptor set with an unrecognised type in between does
too; `graphics_draw_indexed` is never reached. The claim is about every index
type, but an index type that `get_buffer_index_type` does not know is fatal
before the draw call is made. And the claim is about every `indexCount`, but the
`u32` goes to a `GLsizei`: with `indexCount = 2147483648` the one draw call has
count `-2147483648`. -/
theorem C4_unguarded_binds_issue_no_draw :
    ¬ issuesExactlyOneDraw
        (run sampleExt sampleBuffer []
          [.bind_pipeline trianglePipeline, .bind_index_buffer 0 0, .draw_indexed 3 1 0 0])
        (.glDrawElements GL_TRIANGLES 3 0x1403 0) ∧
    ¬ issuesExactlyOneDraw
        (run sampleExt sampleBuffer []
          [.bind_pipeline trianglePipeline, .bind_descriptor_set badDescriptorSet,
            .bind_index_buffer 5 0, .draw_indexed 3 1 0 0])
        (.glDrawElements GL_TRIANGLES 3 0x1403 0) ∧
    (run sampleExt sampleBuffer []
          [.bind_pipeline trianglePipeline, .bind_index_buffer 5 99,
            .draw_indexed 3 1 0 0]).calls.filter GLCall.isDraw = [] ∧
    (¬ issuesExactlyOneDraw
        (run sampleExt sampleBuffer []
          [.bind_pipeline trianglePipeline, .bind_index_buffer 5 0,
            .draw_indexed 2147483648 1 0 0])
        (.glDrawElements GL_TRIANGLES 2147483648 0x1403 0) ∧
      issuesExactlyOneDraw
        (run sampleExt sampleBuffer []
          [.bind_pipeline trianglePipeline, .bind_index_buffer 5 0,
            .draw_indexed 2147483648 1 0 0])
        (.glDrawElements GL_TRIANGLES (-2147483648) 0x1403 0)) := by
  decide

/-- C4, amended: for every command buffer, pipeline P with a recognised
topology, index-buffer handle `h`, index type `t` that `get_buffer_index_type`
maps to an element type, and `indexCount` and `instanceCount` below `2^31`: when
`graphics_bind_pipeline(P)` and `graphics_bind_index_buffer(h, t)`, in either
order, with any commands other than these two kinds between them and after
them, all return (no assert fails and no enum value is unrecognised), the
command buffer holds the topology of P and the index type `t`, its `vao` is
unchanged, and `graphics_draw_indexed(indexCount, instanceCount, firstVertex,
firstInstance)` returns having issued exactly one call: an indexed draw whose
mode is the code of `P.topology`, whose count is `indexCount`, whose element
type is `get_buffer_index_type(t)` and whose offset into the index buffer is
zero, `glDrawElements` when `instanceCount == 1` and
`glDrawElementsInstanced` with `instanceCount` otherwise. -/
theorem C4_draw_indexed_after_binds (ext : Externals) (cb cb1 : command_buffer)
    (pl : pipeline) (h : gl_handle) (t : buffer_index_type) (elementType : Nat)
    (between after : List Command) (calls : List GLCall)
    (indexCount instanceCount firstVertex firstInstance : Nat)
    (htop : pl.topology = .TOPOLOGY_POINTS ∨ pl.topology = .TOPOLOGY_LINES ∨
      pl.topology = .TOPOLOGY_TRIANGLES)
    (hty : ext.get_buffer_index_type t = .ok elementType)
    (hn31 : indexCount < 2 ^ 31) (hic31 : instanceCount < 2 ^ 31)
    (hbetween : ∀ c ∈ between, c.isOther = true) (hafter : ∀ c ∈ after, c.isOther = true)
    (hrun :
      run ext cb [] ([.bind_pipeline pl] ++ between ++ [.bind_index_buffer h t] ++ after)
        = .returned cb1 calls ∨
      run ext cb [] ([.bind_index_buffer h t] ++ between ++ [.bind_pipeline pl] ++ after)
        = .returned cb1 calls) :
    ∃ (mode : Nat) (call : GLCall),
      ((pl.topology = .TOPOLOGY_POINTS ∧ mode = GL_POINTS) ∨
       (pl.topology = .TOPOLOGY_LINES ∧ mode = GL_LINES) ∨
       (pl.topology = .TOPOLOGY_TRIANGLES ∧ mode = GL_TRIANGLES)) ∧
      cb1.vao = cb.vao ∧ cb1.pipelineTopology = pl.topology ∧ cb1.indexType = t ∧
      graphics_draw_indexed ext cb1 indexCount instanceCount firstVertex firstInstance =
        .returned cb1 [call] ∧
      call.isDraw = true ∧
      (instanceCount = 1 →
        call = .glDrawElements mode (indexCount : Int) elementType 0) ∧
      (instanceCount ≠ 1 →
        call = .glDrawElementsInstanced mode (indexCount : Int) elementType 0
          (instanceCount : Int)) := by
  have hcb : cb1 = { cb with pipelineTopology := pl.topology, indexType := t } := by
    rcases hrun with hrun | hrun
    · have := run_returned_cache ext _ cb cb1 [] calls hrun
      rw [this]
      simp only [cacheAfter_append, cacheAfter_others after _ hafter]
      simp only [cacheAfter, List.foldl_cons, List.foldl_nil, Command.cache]
      have hb := cacheAfter_others between { cb with pipelineTopology := pl.topology } hbetween
      simp only [cacheAfter] at hb
      rw [hb]
    · have := run_returned_cache ext _ cb cb1 [] calls hrun
      rw [this]
      simp only [cacheAfter_append, cacheAfter_others after _ hafter]
      simp only [cacheAfter, List.foldl_cons, List.foldl_nil, Command.cache]
      have hb := cacheAfter_others between { cb with indexType := t } hbetween
      simp only [cacheAfter] at hb
      rw [hb]
  have hmode : ∃ mode, topologyCode pl.topology = some mode ∧
      ((pl.topology = .TOPOLOGY_POINTS ∧ mode = GL_POINTS) ∨
       (pl.topology = .TOPOLOGY_LINES ∧ mode = GL_LINES) ∨
       (pl.topology = .TOPOLOGY_TRIANGLES ∧ mode = GL_TRIANGLES)) := by
    rcases htop with h | h | h
    · exact ⟨GL_POINTS, by rw [h]; rfl, Or.inl ⟨h, rfl⟩⟩
    · exact ⟨GL_LINES, by rw [h]; rfl, Or.inr (Or.inl ⟨h, rfl⟩)⟩
    · exact ⟨GL_TRIANGLES, by rw [h]; rfl, Or.inr (Or.inr ⟨h, rfl⟩)⟩
  obtain ⟨mode, hcode, hcases⟩ := hmode
  refine ⟨mode, expectedDrawIndexed mode indexCount elementType instanceCount, hcases,
    by rw [hcb], by rw [hcb], by rw [hcb], ?_, ?_, ?_, ?_⟩
  · subst hcb
    unfold graphics_draw_indexed expectedDrawIndexed
    simp only [hcode, hty]
    by_cases h1 : instanceCount = 1 <;> simp [h1]
  · unfold expectedDrawIndexed
    by_cases h1 : instanceCount = 1 <;> simp [h1, GLCall.isDraw]
  · intro h1; simp [expectedDrawIndexed, h1, i32_cast_of_lt _ hn31]
  · intro h1
    simp [expectedDrawIndexed, h1, i32_cast_of_lt _ hn31, i32_cast_of_lt _ hic31]

/-- C4 on a concrete frame: pipeline, descriptor set, vertex buffer, index
buffer 5 of type 1, render target. The five commands return, the command buffer
holds TRIANGLES and index type 1, and `draw_indexed(6, 2, 0, 0)` issues the one
call `glDrawElementsInstanced(GL_TRIANGLES, 6, GL_UNSIGNED_INT, 0, 2)`, as
`draw_indexed(6, 1, 0, 0)` issues `glDrawElements(GL_TRIANGLES, 6,
GL_UNSIGNED_INT, 0)`. -/
theorem C4_draw_indexed_after_binds_witness :
    run sampleExt sampleBuffer []
        [.bind_pipeline trianglePipeline, .bind_descriptor_set sampleDescriptorSet,
          .bind_vertex_buffer 4 0 12, .bind_index_buffer 5 1, .begin_render 0] =
      .returned { vao := 1, pipelineTopology := .TOPOLOGY_TRIANGLES, indexType := 1 }
        (run sampleExt sampleBuffer []
          [.bind_pipeline trianglePipeline, .bind_descriptor_set sampleDescriptorSet,
            .bind_vertex_buffer 4 0 12, .bind_index_buffer 5 1, .begin_render 0]).calls ∧
    sampleExt.get_buffer_index_type 1 = .ok 0x1405 ∧
    (∃ (mode : Nat) (call : GLCall),
      mode = GL_TRIANGLES ∧
      graphics_draw_indexed sampleExt
          { vao := 1, pipelineTopology := .TOPOLOGY_TRIANGLES, indexType := 1 } 6 2 0 0 =
        .returned { vao := 1, pipelineTopology := .TOPOLOGY_TRIANGLES, indexType := 1 }
          [call] ∧
      call = .glDrawElementsInstanced mode 6 0x1405 0 2) ∧
    graphics_draw_indexed sampleExt
        { vao := 1, pipelineTopology := .TOPOLOGY_TRIANGLES, indexType := 1 } 6 1 0 0 =
      .returned { vao := 1, pipelineTopology := .TOPOLOGY_TRIANGLES, indexType := 1 }
        [.glDrawElements GL_TRIANGLES 6 0x1405 0] := by
  have hrun : run sampleExt sampleBuffer []
        [.bind_pipeline trianglePipeline, .bind_descriptor_set sampleDescriptorSet,
          .bind_vertex_buffer 4 0 12, .bind_index_buffer 5 1, .begin_render 0] =
      .returned { vao := 1, pipelineTopology := .TOPOLOGY_TRIANGLES, indexType := 1 }
        (run sampleExt sampleBuffer []
          [.bind_pipeline trianglePipeline, .bind_descriptor_set sampleDescriptorSet,
            .bind_vertex_buffer 4 0 12, .bind_index_buffer 5 1, .begin_render 0]).calls := by
    decide
  refine ⟨hrun, rfl, ?_, by decide⟩
  obtain ⟨mode, call, hm, -, -, -, hdraw, -, -, hinst⟩ :=
    C4_draw_indexed_after_binds sampleExt sampleBuffer
      { vao := 1, pipelineTopology := .TOPOLOGY_TRIANGLES, indexType := 1 }
      trianglePipeline 5 1 0x1405
      [.bind_descriptor_set sampleDescriptorSet, .bind_vertex_buffer 4 0 12]
      [.begin_render 0]
      (run sampleExt sampleBuffer []
        [.bind_pipeline trianglePipeline, .bind_descriptor_set sampleDescriptorSet,
          .bind_vertex_buffer 4 0 12, .bind_index_buffer 5 1, .begin_render 0]).calls
      6 2 0 0 (by decide) rfl (by norm_num) (by norm_num) (by decide) (by decide)
      (Or.inl hrun)
  have hmode : mode = GL_TRIANGLES := by
    rcases hm with ⟨h, -⟩ | ⟨h, -⟩ | ⟨-, h⟩
    · cases h
    · cases h
    · exact h
  exact ⟨mode, call, hmode, hdraw, hinst (by decide)⟩

/-! ## C5: binding A, B, A -/

/-- C5: for every command buffer with a valid `vao` and all pipelines A and B
with valid handles and recognised `frontFace`, `cullFace` and `polygonMode`:
the three binds A, B, A return, as does the bind of A alone, and the rasterizer
state (front-face winding, cull mode, polygon fill mode) after A, B, A is the
one after A alone, from any context state `g`; it is the state A names. The
winding needs no hypothesis: the code maps every `frontFace` other than CW to
`GL_CCW`. -/
theorem C5_rebind_restores_rasterizer (ext : Externals) (cb : command_buffer)
    (A B : pipeline) (g : GLState)
    (hvao : cb.vao ≠ ext.invalid_handle)
    (hA : A.handle ≠ ext.invalid_handle) (hB : B.handle ≠ ext.invalid_handle)
    (hAcm : cullModeCode A.cullFace ≠ none) (hBcm : cullModeCode B.cullFace ≠ none)
    (hApm : polygonModeCode A.polygonMode ≠ none)
    (hBpm : polygonModeCode B.polygonMode ≠ none) :
    ∃ (cbA cbABA : command_buffer) (callsA callsABA : List GLCall) (pm cm : Nat),
      run ext cb [] [.bind_pipeline A] = .returned cbA callsA ∧
      run ext cb [] [.bind_pipeline A, .bind_pipeline B, .bind_pipeline A]
        = .returned cbABA callsABA ∧
      (glRun g callsABA).rasterizer = (glRun g callsA).rasterizer ∧
      polygonModeCode A.polygonMode = some pm ∧ cullModeCode A.cullFace = some cm ∧
      (glRun g callsA).rasterizer =
        (if A.frontFace = .FRONT_FACE_CW then GL_CW else GL_CCW, cm, pm) := by
  obtain ⟨pmA, hpmA⟩ := Option.ne_none_iff_exists'.1 hApm
  obtain ⟨cmA, hcmA⟩ := Option.ne_none_iff_exists'.1 hAcm
  obtain ⟨pmB, hpmB⟩ := Option.ne_none_iff_exists'.1 hBpm
  obtain ⟨cmB, hcmB⟩ := Option.ne_none_iff_exists'.1 hBcm
  have h1 := bind_pipeline_returned ext cb A pmA cmA hvao hA hpmA hcmA
  have h2 := bind_pipeline_returned ext { cb with pipelineTopology := A.topology } B pmB cmB
    hvao hB hpmB hcmB
  have h3 := bind_pipeline_returned ext { cb with pipelineTopology := B.topology } A pmA cmA
    hvao hA hpmA hcmA
  have hrunA : run ext cb [] [.bind_pipeline A] =
      .returned { cb with pipelineTopology := A.topology }
        ([ .glUseProgram A.handle,
           .glFrontFace (if A.frontFace = .FRONT_FACE_CW then GL_CW else GL_CCW),
           .glPolygonMode GL_FRONT_AND_BACK pmA, .glCullFace cmA ]
          ++ layoutCalls ext cb.vao A.attributes A.bindingDescriptions) := by
    simp only [run, Command.exec, h1, List.nil_append]
  have hrunABA : run ext cb [] [.bind_pipeline A, .bind_pipeline B, .bind_pipeline A] =
      .returned { cb with pipelineTopology := A.topology }
        ((([ .glUseProgram A.handle,
           .glFrontFace (if A.frontFace = .FRONT_FACE_CW then GL_CW else GL_CCW),
           .glPolygonMode GL_FRONT_AND_BACK pmA, .glCullFace cmA ]
          ++ layoutCalls ext cb.vao A.attributes A.bindingDescriptions)
          ++ ([ .glUseProgram B.handle,
           .glFrontFace (if B.frontFace = .FRONT_FACE_CW then GL_CW else GL_CCW),
           .glPolygonMode GL_FRONT_AND_BACK pmB, .glCullFace cmB ]
          ++ layoutCalls ext cb.vao B.attributes B.bindingDescriptions))
          ++ ([ .glUseProgram A.handle,
           .glFrontFace (if A.frontFace = .FRONT_FACE_CW then GL_CW else GL_CCW),
           .glPolygonMode GL_FRONT_AND_BACK pmA, .glCullFace cmA ]
          ++ layoutCalls ext cb.vao A.attributes A.bindingDescriptions)) := by
    simp only [run, Command.exec, h1, h2, h3, List.nil_append]
  refine ⟨_, _, _, _, pmA, cmA, hrunA, hrunABA, ?_, hpmA, hcmA, ?_⟩
  · rw [glRun_append, rasterizer_glRun_bind _ _ _ _ _ _
        (isLayout_of_mem_layoutCalls ext _ _ _),
      rasterizer_glRun_bind _ _ _ _ _ _ (isLayout_of_mem_layoutCalls ext _ _ _)]
  · rw [rasterizer_glRun_bind _ _ _ _ _ _ (isLayout_of_mem_layoutCalls ext _ _ _)]

/-- C5 on the triangle pipeline and the line pipeline, from the initial
context: counter-clockwise, back culling, filled. -/
theorem C5_rebind_restores_rasterizer_witness :
    ∃ (cbA cbABA : command_buffer) (callsA callsABA : List GLCall),
      run sampleExt sampleBuffer [] [.bind_pipeline trianglePipeline] = .returned cbA callsA ∧
      run sampleExt sampleBuffer []
          [.bind_pipeline trianglePipeline, .bind_pipeline linePipeline,
            .bind_pipeline trianglePipeline] = .returned cbABA callsABA ∧
      (glRun initialGL callsABA).rasterizer = (glRun initialGL callsA).rasterizer ∧
      (glRun initialGL callsA).rasterizer = (GL_CCW, GL_BACK, GL_FILL) ∧
      (glRun initialGL (run sampleExt sampleBuffer []
          [.bind_pipeline trianglePipeline, .bind_pipeline linePipeline]).calls).rasterizer
        = (GL_CW, GL_FRONT, GL_LINE) := by
  obtain ⟨cbA, cbABA, callsA, callsABA, pm, cm, h1, h2, h3, hpm, hcm, h4⟩ :=
    C5_rebind_restores_rasterizer sampleExt sampleBuffer trianglePipeline linePipeline initialGL
      (by decide) (by decide) (by decide) (by decide) (by decide) (by decide) (by decide)
  refine ⟨cbA, cbABA, callsA, callsABA, h1, h2, h3, ?_, by decide⟩
  rw [h4]
  have e1 : pm = GL_FILL := by
    have : polygonModeCode trianglePipeline.polygonMode = some GL_FILL := rfl
    rw [this] at hpm; injection hpm with h; exact h.symm
  have e2 : cm = GL_BACK := by
    have : cullModeCode trianglePipeline.cullFace = some GL_BACK := rfl
    rw [this] at hcm; injection hcm with h; exact h.symm
  rw [e1, e2]
  rfl

/-! ## C6: the order of the entries of a descriptor set -/

/-- C6, as stated, fails, in two ways. Two uniform buffers on the same binding
0: the bind point holds the handle of whichever entry comes last. The scenario
of the claim, uniform buffers at bindings 0 and 1: the generic
`GL_UNIFORM_BUFFER` binding, which `glBindBufferBase` sets together with the
indexed one, holds the handle of the last entry. -/
theorem C6_order_of_entries_matters :
    (collidingSetSwapped.descriptors.Perm collidingSet.descriptors ∧
      (∀ d ∈ collidingSet.descriptors, d.recognised) ∧
      (glRun initialGL (graphics_bind_descriptor_set sampleBuffer collidingSetSwapped).calls
        ).uniformBufferBase 0 ≠
      (glRun initialGL (graphics_bind_descriptor_set sampleBuffer collidingSet).calls
        ).uniformBufferBase 0) ∧
    (twoUniformSetSwapped.descriptors.Perm twoUniformSet.descriptors ∧
      (∀ d ∈ twoUniformSet.descriptors, d.recognised) ∧
      (glRun initialGL (graphics_bind_descriptor_set sampleBuffer twoUniformSetSwapped).calls
        ).uniformBufferBinding ≠
      (glRun initialGL (graphics_bind_descriptor_set sampleBuffer twoUniformSet).calls
        ).uniformBufferBinding) := by
  decide

/-- C6, amended: for every descriptor set whose entries all have a recognised
type and no two of which have the same type and binding, and for every
permutation of its entries, `graphics_bind_descriptor_set` returns on both and
leaves the same handle on every indexed uniform-buffer bind point, on every
indexed storage-buffer bind point and on every texture unit other than the
active one; each uniform-buffer entry leaves its handle on the bind point of its
binding in either order. -/
theorem C6_distinct_slots_commute (cb : command_buffer) (set1 set2 : descriptor_set)
    (g : GLState)
    (hperm : set2.descriptors.Perm set1.descriptors)
    (hrec : ∀ d ∈ set1.descriptors, d.recognised)
    (hslots : (set1.descriptors.map (fun d => (d.type, d.binding))).Nodup) :
    ∃ calls1 calls2 : List GLCall,
      graphics_bind_descriptor_set cb set1 = .returned cb calls1 ∧
      graphics_bind_descriptor_set cb set2 = .returned cb calls2 ∧
      (∀ i, (glRun g calls2).uniformBufferBase i = (glRun g calls1).uniformBufferBase i) ∧
      (∀ i, (glRun g calls2).shaderStorageBufferBase i =
        (glRun g calls1).shaderStorageBufferBase i) ∧
      (∀ u, u ≠ g.activeTexture →
        (glRun g calls2).textureBinding2D u = (glRun g calls1).textureBinding2D u) ∧
      (∀ d ∈ set1.descriptors, d.type = .DESCRIPTOR_TYPE_UNIFORM_BUFFER →
        (glRun g calls1).uniformBufferBase d.binding = d.handle ∧
        (glRun g calls2).uniformBufferBase d.binding = d.handle) := by
  have hrec2 : ∀ d ∈ set2.descriptors, d.recognised :=
    fun d hd => hrec d (hperm.mem_iff.1 hd)
  have h1 := bindDescriptors_recognised cb set1.descriptors [] hrec
  have h2 := bindDescriptors_recognised cb set2.descriptors [] hrec2
  simp only [List.nil_append] at h1 h2
  have hU1 : ∀ i b, .glBindBufferBase GL_UNIFORM_BUFFER i b ∈
      set1.descriptors.flatMap descriptorCallList ↔
      ∃ d ∈ set1.descriptors, d.type = .DESCRIPTOR_TYPE_UNIFORM_BUFFER ∧ d.binding = i ∧
        d.handle = b := by
    intro i b; simp only [List.mem_flatMap, mem_descriptorCallList_uniform]
  have hU2 : ∀ i b, .glBindBufferBase GL_UNIFORM_BUFFER i b ∈
      set2.descriptors.flatMap descriptorCallList ↔
      ∃ d ∈ set1.descriptors, d.type = .DESCRIPTOR_TYPE_UNIFORM_BUFFER ∧ d.binding = i ∧
        d.handle = b := by
    intro i b; simp only [List.mem_flatMap, mem_descriptorCallList_uniform, hperm.mem_iff]
  have hS1 : ∀ i b, .glBindBufferBase GL_SHADER_STORAGE_BUFFER i b ∈
      set1.descriptors.flatMap descriptorCallList ↔
      ∃ d ∈ set1.descriptors, d.type = .DESCRIPTOR_TYPE_SHADER_STORAGE_BUFFER ∧
        d.binding = i ∧ d.handle = b := by
    intro i b; simp only [List.mem_flatMap, mem_descriptorCallList_storage]
  have hS2 : ∀ i b, .glBindBufferBase GL_SHADER_STORAGE_BUFFER i b ∈
      set2.descriptors.flatMap descriptorCallList ↔
      ∃ d ∈ set1.descriptors, d.type = .DESCRIPTOR_TYPE_SHADER_STORAGE_BUFFER ∧
        d.binding = i ∧ d.handle = b := by
    intro i b; simp only [List.mem_flatMap, mem_descriptorCallList_storage, hperm.mem_iff]
  have hT1 : ∀ u t, .glBindTextureUnit u t ∈
      set1.descriptors.flatMap descriptorCallList ↔
      ∃ d ∈ set1.descriptors, d.type = .DESCRIPTOR_TYPE_COMBINED_TEXTURE_SAMPLER ∧
        d.binding = u ∧ d.handle = t := by
    intro u t; simp only [List.mem_flatMap, mem_descriptorCallList_texture]
  have hT2 : ∀ u t, .glBindTextureUnit u t ∈
      set2.descriptors.flatMap descriptorCallList ↔
      ∃ d ∈ set1.descriptors, d.type = .DESCRIPTOR_TYPE_COMBINED_TEXTURE_SAMPLER ∧
        d.binding = u ∧ d.handle = t := by
    intro u t; simp only [List.mem_flatMap, mem_descriptorCallList_texture, hperm.mem_iff]
  have huniq : ∀ (ty : descriptor_type) (i b1 b2 : Nat),
      (∃ d ∈ set1.descriptors, d.type = ty ∧ d.binding = i ∧ d.handle = b1) →
      (∃ d ∈ set1.descriptors, d.type = ty ∧ d.binding = i ∧ d.handle = b2) → b1 = b2 := by
    rintro ty i b1 b2 ⟨d1, hd1, ht1, hb1, rfl⟩ ⟨d2, hd2, ht2, hb2, rfl⟩
    exact handle_eq_of_slot_eq _ hslots d1 d2 hd1 hd2 (ht1.trans ht2.symm) (hb1.trans hb2.symm)
  refine ⟨_, _, h1, h2, ?_, ?_, ?_, ?_⟩
  · intro i
    exact glRun_agree (fun g => g.uniformBufferBase i)
      (fun b => .glBindBufferBase GL_UNIFORM_BUFFER i b)
      (fun cs g v => uniformBufferBase_glRun cs g i v) _ _ g
      (fun b => (hU2 i b).trans (hU1 i b).symm)
      (fun b1 b2 hb1 hb2 => huniq _ i b1 b2 ((hU1 i b1).1 hb1) ((hU1 i b2).1 hb2))
  · intro i
    exact glRun_agree (fun g => g.shaderStorageBufferBase i)
      (fun b => .glBindBufferBase GL_SHADER_STORAGE_BUFFER i b)
      (fun cs g v => shaderStorageBufferBase_glRun cs g i v) _ _ g
      (fun b => (hS2 i b).trans (hS1 i b).symm)
      (fun b1 b2 hb1 hb2 => huniq _ i b1 b2 ((hS1 i b1).1 hb1) ((hS1 i b2).1 hb2))
  · intro u hu
    by_cases hex : ∃ t, GLCall.glBindTextureUnit u t ∈
        set1.descriptors.flatMap descriptorCallList
    · obtain ⟨t, ht⟩ := hex
      rw [textureBinding2D_glRun _ g u t hu
          (fun t2 h2 => huniq _ u t2 t ((hT1 u t2).1 h2) ((hT1 u t).1 ht)) (Or.inr ⟨t, ht⟩),
        textureBinding2D_glRun _ g u t hu
          (fun t2 h2 => huniq _ u t2 t ((hT2 u t2).1 h2) ((hT1 u t).1 ht))
          (Or.inr ⟨t, (hT2 u t).2 ((hT1 u t).1 ht)⟩)]
    · rw [textureBinding2D_glRun _ g u _ hu (fun t h => absurd ⟨t, h⟩ hex) (Or.inl rfl),
        textureBinding2D_glRun _ g u _ hu
          (fun t h => absurd ⟨t, (hT1 u t).2 ((hT2 u t).1 h)⟩ hex) (Or.inl rfl)]
  · intro d hd hty
    have hmem : ∃ d2 ∈ set1.descriptors, d2.type = .DESCRIPTOR_TYPE_UNIFORM_BUFFER ∧
        d2.binding = d.binding ∧ d2.handle = d.handle := ⟨d, hd, hty, rfl, rfl⟩
    constructor
    · exact uniformBufferBase_glRun _ g _ _
        (fun b hb => huniq _ d.binding b d.handle ((hU1 _ b).1 hb) hmem)
        (Or.inr ⟨d.handle, (hU1 _ _).2 hmem⟩)
    · exact uniformBufferBase_glRun _ g _ _
        (fun b hb => huniq _ d.binding b d.handle ((hU2 _ b).1 hb) hmem)
        (Or.inr ⟨d.handle, (hU2 _ _).2 hmem⟩)

/-- C6 on the scenario of the claim: uniform buffers 11 and 12 at bindings 0 and
1 leave bind point 0 holding 11 and bind point 1 holding 12 in either order. -/
theorem C6_distinct_slots_commute_witness :
    twoUniformSetSwapped.descriptors.Perm twoUniformSet.descriptors ∧
    (∃ calls1 calls2 : List GLCall,
      graphics_bind_descriptor_set sampleBuffer twoUniformSet = .returned sampleBuffer calls1 ∧
      graphics_bind_descriptor_set sampleBuffer twoUniformSetSwapped
        = .returned sampleBuffer calls2 ∧
      (∀ i, (glRun initialGL calls2).uniformBufferBase i =
        (glRun initialGL calls1).uniformBufferBase i)) ∧
    (glRun initialGL (graphics_bind_descriptor_set sampleBuffer twoUniformSet).calls
      ).uniformBufferBase 0 = 11 ∧
    (glRun initialGL (graphics_bind_descriptor_set sampleBuffer twoUniformSet).calls
      ).uniformBufferBase 1 = 12 ∧
    (glRun initialGL (graphics_bind_descriptor_set sampleBuffer twoUniformSetSwapped).calls
      ).uniformBufferBase 0 = 11 ∧
    (glRun initialGL (graphics_bind_descriptor_set sampleBuffer twoUniformSetSwapped).calls
      ).uniformBufferBase 1 = 12 := by
  refine ⟨by decide, ?_, by decide, by decide, by decide, by decide⟩
  obtain ⟨calls1, calls2, h1, h2, h3, -⟩ :=
    C6_distinct_slots_commute sampleBuffer twoUniformSet twoUniformSetSwapped initialGL
      (by decide) (by decide) (by decide)
  exact ⟨calls1, calls2, h1, h2, h3⟩

/-! ## C7: unrecognised cull face and polygon mode -/

/-- C7: for every pipeline whose `cullFace` is not one of the three recognised
values, `graphics_bind_pipeline` does not return: the process is terminated
with a diagnostic, no `glCullFace` call and no call of the layout loops has been
issued, and when the asserts pass and `polygonMode` is recognised the
diagnostic is the fatal log "Invalid cull mode" after exactly `glUseProgram`,
`glFrontFace` and `glPolygonMode`. Respectively for `polygonMode`: no
`glPolygonMode`, no `glCullFace` and no layout call has been issued, and when
the asserts pass the diagnostic is the fatal log "Invalid polygon mode" after
exactly `glUseProgram` and `glFrontFace`. -/
theorem C7_unrecognised_enum_is_fatal (ext : Externals) (cb : command_buffer) (pl : pipeline) :
    ((pl.cullFace ≠ .CULL_BACK ∧ pl.cullFace ≠ .CULL_FRONT ∧
        pl.cullFace ≠ .CULL_FRONT_AND_BACK) →
      (∃ fault issued, graphics_bind_pipeline ext cb pl = .aborted fault issued ∧
        ∀ c ∈ issued, c.isCullFace = false ∧ c.isLayout = false) ∧
      (cb.vao ≠ ext.invalid_handle → pl.handle ≠ ext.invalid_handle →
        ∀ pm, polygonModeCode pl.polygonMode = some pm →
        graphics_bind_pipeline ext cb pl =
          .aborted (.fatal "Invalid cull mode: %d")
            [ .glUseProgram pl.handle,
              .glFrontFace (if pl.frontFace = .FRONT_FACE_CW then GL_CW else GL_CCW),
              .glPolygonMode GL_FRONT_AND_BACK pm ])) ∧
    ((pl.polygonMode ≠ .POLYGON_MODE_FILL ∧ pl.polygonMode ≠ .POLYGON_MODE_LINE ∧
        pl.polygonMode ≠ .POLYGON_MODE_POINT) →
      (∃ fault issued, graphics_bind_pipeline ext cb pl = .aborted fault issued ∧
        ∀ c ∈ issued, c.isPolygonMode = false ∧ c.isCullFace = false ∧ c.isLayout = false) ∧
      (cb.vao ≠ ext.invalid_handle → pl.handle ≠ ext.invalid_handle →
        graphics_bind_pipeline ext cb pl =
          .aborted (.fatal "Invalid polygon mode: %d")
            [ .glUseProgram pl.handle,
              .glFrontFace (if pl.frontFace = .FRONT_FACE_CW then GL_CW else GL_CCW) ])) := by
  constructor
  · rintro ⟨h1, h2, h3⟩
    have hcm : cullModeCode pl.cullFace = none := by
      cases hc : pl.cullFace <;> simp_all [cullModeCode]
    constructor
    · unfold graphics_bind_pipeline
      split
      · exact ⟨_, _, rfl, by simp⟩
      · split
        · exact ⟨_, _, rfl, by simp⟩
        · cases hpm : polygonModeCode pl.polygonMode with
          | none => exact ⟨_, _, rfl, by simp [GLCall.isCullFace, GLCall.isLayout]⟩
          | some pm =>
            simp only [hcm]
            exact ⟨_, _, rfl, by simp [GLCall.isCullFace, GLCall.isLayout]⟩
    · intro hvao hh pm hpm
      simp [graphics_bind_pipeline, hvao, hh, hpm, hcm, SAIL_LOG_FATAL]
  · rintro ⟨h1, h2, h3⟩
    have hpm : polygonModeCode pl.polygonMode = none := by
      cases hc : pl.polygonMode <;> simp_all [polygonModeCode]
    constructor
    · unfold graphics_bind_pipeline
      split
      · exact ⟨_, _, rfl, by simp⟩
      · split
        · exact ⟨_, _, rfl, by simp⟩
        · simp only [hpm]
          exact ⟨_, _, rfl,
            by simp [GLCall.isCullFace, GLCall.isLayout, GLCall.isPolygonMode]⟩
    · intro hvao hh
      simp [graphics_bind_pipeline, hvao, hh, hpm, SAIL_LOG_FATAL]

/-- C7 on the scenario pipeline with `cullFace` 7, and with `polygonMode` 3. -/
theorem C7_unrecognised_enum_is_fatal_witness :
    graphics_bind_pipeline sampleExt sampleBuffer
        { trianglePipeline with cullFace := .unrecognised 7 } =
      .aborted (.fatal "Invalid cull mode: %d")
        [.glUseProgram 7, .glFrontFace GL_CCW, .glPolygonMode GL_FRONT_AND_BACK GL_FILL] ∧
    graphics_bind_pipeline sampleExt sampleBuffer
        { trianglePipeline with polygonMode := .unrecognised 3 } =
      .aborted (.fatal "Invalid polygon mode: %d") [.glUseProgram 7, .glFrontFace GL_CCW] := by
  have h := C7_unrecognised_enum_is_fatal sampleExt sampleBuffer
    { trianglePipeline with cullFace := .unrecognised 7 }
  have h2 := C7_unrecognised_enum_is_fatal sampleExt sampleBuffer
    { trianglePipeline with polygonMode := .unrecognised 3 }
  exact ⟨(h.1 (by decide)).2 (by decide) (by decide) GL_FILL rfl,
    (h2.2 (by decide)).2 (by decide) (by decide)⟩

/-! ## C8: `graphics_end_render` -/

/-- C8: for every command buffer and every context state, `graphics_end_render`
is `graphics_begin_render` with target 0, which is the spec's definition of it:
both return having issued `glBindVertexArray(vao)` then
`glBindFramebuffer(GL_FRAMEBUFFER, 0)`, both leave the same context, with the
buffer's vao and framebuffer 0 bound, and the command buffer they leave is the
one they received. -/
theorem C8_end_render_is_begin_render_default (cb : command_buffer) (g : GLState) :
    graphics_end_render cb = graphics_begin_render cb 0 ∧
    graphics_end_render cb = spec_end_render cb ∧
    graphics_end_render cb =
      .returned cb [.glBindVertexArray cb.vao, .glBindFramebuffer GL_FRAMEBUFFER 0] ∧
    glRun g (graphics_end_render cb).calls = glRun g (graphics_begin_render cb 0).calls ∧
    (glRun g (graphics_end_render cb).calls).vertexArrayBinding = cb.vao ∧
    (glRun g (graphics_end_render cb).calls).drawFramebufferBinding = 0 ∧
    (glRun g (graphics_end_render cb).calls).readFramebufferBinding = 0 :=
  ⟨rfl, rfl, rfl, rfl, rfl, rfl, rfl⟩

/-! ## C9: the draw parameters that are not passed on -/

/-- C9: for every command buffer and all arguments, two runs of `graphics_draw`
that differ only in `firstInstance` have the same outcome, calls included, and
so have two runs of `graphics_draw_indexed` that differ only in `firstVertex`
and `firstInstance`, whatever `instanceCount` is. -/
theorem C9_unthreaded_parameters_have_no_effect (ext : Externals) (cb : command_buffer)
    (count instanceCount firstVertex firstVertex2 firstInstance firstInstance2 : Nat) :
    graphics_draw cb count instanceCount firstVertex firstInstance =
      graphics_draw cb count instanceCount firstVertex firstInstance2 ∧
    graphics_draw_indexed ext cb count instanceCount firstVertex firstInstance =
      graphics_draw_indexed ext cb count instanceCount firstVertex2 firstInstance2 ∧
    (graphics_draw cb count instanceCount firstVertex firstInstance).calls =
      (graphics_draw cb count instanceCount firstVertex firstInstance2).calls ∧
    (graphics_draw_indexed ext cb count instanceCount firstVertex firstInstance).calls =
      (graphics_draw_indexed ext cb count instanceCount firstVertex2 firstInstance2).calls :=
  ⟨rfl, rfl, rfl, rfl⟩

/-! ## C10: enabled attribute slots only grow -/

/-- C10: `graphics_bind_pipeline` never disables a vertex attribute slot. For
every command buffer, every context `g` and every sequence of pipeline binds, a
slot enabled before the binds is enabled after them, and a slot enabled after
the binds is enabled after any further binds; a slot enabled after binding A is
still enabled after binding A and then B; and when both binds
return (asserts pass, `polygonMode` and `cullFace` recognised) the slots of the
buffer's vao enabled after A then B are those enabled before, those A enables
and those B enables, the slots a pipeline enables being the locations of its
attributes whose binding a description lists. -/
theorem C10_enabled_slots_only_grow (ext : Externals) (cb : command_buffer) (g : GLState)
    (A B : pipeline) (ps : List pipeline) (loc : Nat) :
    (∀ k, g.attribEnabled k = true →
      (glRun g (run ext cb [] (ps.map Command.bind_pipeline)).calls).attribEnabled k = true) ∧
    (∀ k (more : List pipeline),
      (glRun g (run ext cb [] (ps.map Command.bind_pipeline)).calls).attribEnabled k = true →
      (glRun g (run ext cb [] ((ps ++ more).map Command.bind_pipeline)).calls).attribEnabled k
        = true) ∧
    ((glRun g (run ext cb [] [.bind_pipeline A]).calls).attribEnabled (cb.vao, loc) = true →
      (glRun g (run ext cb [] [.bind_pipeline A, .bind_pipeline B]).calls).attribEnabled
        (cb.vao, loc) = true) ∧
    (cb.vao ≠ ext.invalid_handle → A.handle ≠ ext.invalid_handle →
      B.handle ≠ ext.invalid_handle →
      polygonModeCode A.polygonMode ≠ none → cullModeCode A.cullFace ≠ none →
      polygonModeCode B.polygonMode ≠ none → cullModeCode B.cullFace ≠ none →
      ((glRun g (run ext cb [] [.bind_pipeline A, .bind_pipeline B]).calls).attribEnabled
          (cb.vao, loc) = true ↔
        g.attribEnabled (cb.vao, loc) = true ∨ loc ∈ enabledSlots A ∨ loc ∈ enabledSlots B)) := by
  refine ⟨?_, ?_, ?_, ?_⟩
  · intro k hk
    exact (attribEnabled_glRun _ k g).2 (Or.inl hk)
  · intro k more h
    obtain ⟨extra, hextra⟩ :=
      run_calls_append ext (ps.map Command.bind_pipeline) (more.map Command.bind_pipeline) cb []
    rw [List.map_append, hextra, glRun_append]
    exact (attribEnabled_glRun _ _ _).2 (Or.inl h)
  · intro h
    obtain ⟨extra, hextra⟩ :=
      run_calls_append ext [.bind_pipeline A] [.bind_pipeline B] cb []
    simp only [List.singleton_append] at hextra
    rw [hextra, glRun_append]
    exact (attribEnabled_glRun _ _ _).2 (Or.inl h)
  · intro hvao hA hB hApm hAcm hBpm hBcm
    obtain ⟨pmA, hpmA⟩ := Option.ne_none_iff_exists'.1 hApm
    obtain ⟨cmA, hcmA⟩ := Option.ne_none_iff_exists'.1 hAcm
    obtain ⟨pmB, hpmB⟩ := Option.ne_none_iff_exists'.1 hBpm
    obtain ⟨cmB, hcmB⟩ := Option.ne_none_iff_exists'.1 hBcm
    have h1 := bind_pipeline_returned ext cb A pmA cmA hvao hA hpmA hcmA
    have h2 := bind_pipeline_returned ext { cb with pipelineTopology := A.topology } B pmB cmB
      hvao hB hpmB hcmB
    have hrun : (run ext cb [] [.bind_pipeline A, .bind_pipeline B]).calls =
        ([ .glUseProgram A.handle,
           .glFrontFace (if A.frontFace = .FRONT_FACE_CW then GL_CW else GL_CCW),
           .glPolygonMode GL_FRONT_AND_BACK pmA, .glCullFace cmA ]
          ++ layoutCalls ext cb.vao A.attributes A.bindingDescriptions)
          ++ ([ .glUseProgram B.handle,
           .glFrontFace (if B.frontFace = .FRONT_FACE_CW then GL_CW else GL_CCW),
           .glPolygonMode GL_FRONT_AND_BACK pmB, .glCullFace cmB ]
          ++ layoutCalls ext cb.vao B.attributes B.bindingDescriptions) := by
      simp only [run, Command.exec, h1, h2, List.nil_append, Outcome.calls]
    rw [hrun, attribEnabled_glRun]
    simp only [List.mem_append, List.mem_cons, List.mem_singleton, List.not_mem_nil,
      or_false, reduceCtorEq, false_or, enable_mem_layoutCalls]

/-- C10 on the triangle pipeline (slot 0) followed by the line pipeline (no
attribute): slot 0 of vertex array 1 is enabled after the two binds, and the
line pipeline alone would leave it disabled. -/
theorem C10_enabled_slots_only_grow_witness :
    ((glRun initialGL (run sampleExt sampleBuffer []
        [.bind_pipeline trianglePipeline, .bind_pipeline linePipeline]).calls).attribEnabled
          (1, 0) = true ↔
      initialGL.attribEnabled (1, 0) = true ∨ 0 ∈ enabledSlots trianglePipeline ∨
        0 ∈ enabledSlots linePipeline) ∧
    (glRun initialGL (run sampleExt sampleBuffer []
        [.bind_pipeline trianglePipeline, .bind_pipeline linePipeline]).calls).attribEnabled
          (1, 0) = true ∧
    (glRun initialGL (run sampleExt sampleBuffer []
        [.bind_pipeline linePipeline]).calls).attribEnabled (1, 0) = false ∧
    0 ∉ enabledSlots linePipeline :=
  ⟨(C10_enabled_slots_only_grow sampleExt sampleBuffer initialGL trianglePipeline linePipeline
      [] 0).2.2.2 (by decide) (by decide) (by decide) (by decide) (by decide) (by decide)
      (by decide),
    by decide, by decide, by decide⟩

end Sailboat
